import Mathlib

/-!
Shallow embedding of the cslarsen/gameboy emulator core (Python sources:
`gameboy/util.py`, `gameboy/instructions.py`, `gameboy/memory.py`,
`gameboy/cartridge.py`, `gameboy/display.py`, `gameboy/opcodes.py`,
`gameboy/cpu.py`) together with theorems checking the repository
specification against it.

Modelling conventions:
* Python byte arrays (`array.array("B", ...)`) are embedded as total
  functions `Nat → Nat`; every write goes through `% 0x100` exactly as in
  `Memory.__setitem__`.
* Python integers are `Nat` where the source value is provably
  non-negative and `Int` where the source arithmetic can go below zero
  (register updates such as `self.B -= 1`); Python `%` on a positive
  modulus agrees with `Int.emod`.
* Host-side effects (SDL windows, pixel buffers, logging, wall-clock
  time) never feed back into registers, bus or display registers, so the
  embedding does not track them.
-/

namespace GB

/-- Byte arrays (`array.array` of unsigned bytes) are embedded as total
functions from index to stored byte. -/
abbrev ByteFn := Nat → Nat

/-- Pointwise update of a byte function at one index. -/
def updFn (f : ByteFn) (i v : Nat) : ByteFn :=
  fun j => if j = i then v else f j

/-- Embeds `Memory.__setitem__` (memory.py line 66): stored values are
reduced modulo 0x100.  The read-only check never fires on the write paths
the controller uses (all regions written through the bus are writable), so
it is not modelled. -/
def memSet (f : ByteFn) (i v : Nat) : ByteFn :=
  updFn f i (v % 0x100)

/-- Embeds `util.u8_to_signed`: reinterpret an unsigned byte as signed. -/
def u8_to_signed (value : Nat) : Int :=
  if value > 0x7f then -(0x100 - (value : Int)) else (value : Int)

/-- Embeds `util.u16_to_u8`: split a 16-bit word into (high, low) bytes. -/
def u16_to_u8 (value : Nat) : Nat × Nat :=
  ((value &&& 0xff00) >>> 8, value &&& 0xff)

/-- Embeds `util.u8_to_u16`: combine high and low bytes into a word. -/
def u8_to_u16 (hi lo : Nat) : Nat :=
  hi <<< 8 ||| lo

/-- Embeds `instructions.swap8`: swap the nibbles of a byte. -/
def swap8 (n : Nat) : Nat :=
  (n &&& 0xf) <<< 4 ||| n >>> 4

/-- Embeds `instructions.inc16`.  Note the source modulus really is
0xffff, not 0x10000. -/
def inc16 (n : Nat) : Nat :=
  (n + 1) % 0xffff

/-- Display state (display.py, class `Display`).  Only the fields that can
ever flow back into the CPU or bus are tracked: the VRAM array and the
pseudo-registers.  The pixel buffers, palette cache, SDL windows and
frame/fps counters are host-side sinks (nothing in the core ever reads
them back), so they are outside the model.  `LCDCONT` holds the stored
`_LCDCONT` attribute. -/
structure Display where
  ram : ByteFn
  LY : Nat
  SCY : Nat
  SCX : Nat
  BGPAL : Nat
  LCDCONT : Nat

/-- Embeds the `Display.screen_on` property: LCDC bit 7. -/
def Display.screen_on (d : Display) : Bool :=
  (d.LCDCONT &&& (1 <<< 7)) != 0

/-- Embeds the `Display.background_display` property: LCDC bit 0. -/
def Display.background_display (d : Display) : Bool :=
  (d.LCDCONT &&& 1) == 1

/-- Embeds `Display.ly_rollover`: increment LY modulo 0x100 and report
whether it rolled over to zero. -/
def Display.ly_rollover (d : Display) : Display × Bool :=
  let d' := { d with LY := (d.LY + 1) % 0x100 }
  (d', d'.LY == 0)

/-- Embeds `Display.step` (display.py lines 281-302) restricted to the
tracked state.  When the screen is off the method only pumps host events
and returns, leaving LY untouched.  Otherwise it renders one scanline
(writes only to the untracked pixel buffers; the reads it performs from
VRAM cannot fail because every computed index lands inside the 0x2000-byte
array, negative Python indices included) and then calls `ly_rollover`;
the rollover branch only flushes host-side buffers and the untracked
palette cache. -/
def Display.step (d : Display) : Display :=
  if !d.screen_on then d
  else (d.ly_rollover).1

/-- Cartridge state (cartridge.py).  ROM banks are read-only byte arrays
of 0x4000 bytes; the model assumes full-sized banks (a ROM whose length is
a multiple of 16 KiB), which is the shape every theorem below uses. -/
structure Cartridge where
  rom_bank : List ByteFn

/-- Embeds the `Cartridge.rom_banks` property: the header byte at offset
0x148 of bank 0 is looked up in a fixed code table; unknown codes give
`none` (Python `dict.get` returning `None`). -/
def Cartridge.rom_banks (c : Cartridge) : Option Nat :=
  let size := (c.rom_bank.getD 0 (fun _ => 0)) 0x148
  if size = 0x0 then some 2
  else if size = 0x1 then some 4
  else if size = 0x2 then some 8
  else if size = 0x3 then some 16
  else if size = 0x4 then some 32
  else if size = 0x5 then some 64
  else if size = 0x6 then some 128
  else if size = 0x52 then some 72
  else if size = 0x53 then some 80
  else if size = 0x54 then some 96
  else none

/-- Bus state (memory.py, class `MemoryController`).  `home` stores the
index of the currently selected switchable ROM bank: the Python object
keeps a reference `self.home = self.cartridge.rom_bank[value]` and only
ever reads through it, so keeping the index is observationally the same.
`fixed_home` is always `cartridge.rom_bank[0]` and `expanded_work_ram` is
always `ram_banks[0]` (`ewram` here); the other three RAM banks are never
reachable and are dropped. -/
structure Bus where
  boot_rom : ByteFn
  display : Display
  cartridge : Cartridge
  ewram : ByteFn
  internal_work_ram : ByteFn
  home : Nat
  boot_rom_active : Bool

/-- The memory regions `MemoryController._memory_map` can return. -/
inductive Region
  | bootROM
  | fixedHome
  | homeBank
  | displayRAM
  | expandedWRAM
  | internalWRAM
deriving DecidableEq

/-- Embeds `MemoryController._memory_map`: locate the region and base
offset for an address, or `none` for addresses above 0xFFFF. -/
def memory_map (s : Bus) (address : Nat) : Option (Region × Nat) :=
  if address < 0x0100 ∧ s.boot_rom_active = true then some (.bootROM, 0x0)
  else if address < 0x4000 then some (.fixedHome, 0x0)
  else if address < 0x8000 then some (.homeBank, 0x4000)
  else if address < 0xa000 then some (.displayRAM, 0x8000)
  else if address < 0xc000 then some (.expandedWRAM, 0xa000)
  else if address ≤ 0xffff then some (.internalWRAM, 0xc000)
  else none

/-- Byte stored at a region-local index.  For `homeBank` an out-of-range
bank index would be a Python `IndexError`; the bus invariant (the selected
bank is produced by `__setitem__` from `rom_banks`) keeps the index inside
the list in every state the theorems visit, and `getD` supplies an
all-zero array otherwise. -/
def regionGet (s : Bus) (r : Region) (i : Nat) : Nat :=
  match r with
  | .bootROM => s.boot_rom i
  | .fixedHome => (s.cartridge.rom_bank.getD 0 (fun _ => 0)) i
  | .homeBank => (s.cartridge.rom_bank.getD s.home (fun _ => 0)) i
  | .displayRAM => s.display.ram i
  | .expandedWRAM => s.ewram i
  | .internalWRAM => s.internal_work_ram i

/-- Store a byte at a region-local index (modulo 0x100, as in
`Memory.__setitem__`).  Only the three writable RAM regions are ever
reached by `__setitem__` (addresses below 0x8000 are diverted to the
bank-switch branch first), so the ROM regions are identities here. -/
def regionSet (s : Bus) (r : Region) (i v : Nat) : Bus :=
  match r with
  | .bootROM => s
  | .fixedHome => s
  | .homeBank => s
  | .displayRAM => { s with display.ram := memSet s.display.ram i v }
  | .expandedWRAM => { s with ewram := memSet s.ewram i v }
  | .internalWRAM => { s with internal_work_ram := memSet s.internal_work_ram i v }

/-- Embeds `MemoryController.__getitem__`: the five LCD register
intercepts, then the region map; `None` regions (addresses above 0xFFFF)
read as 0.  For a mapped address the `address - offset < len(memory)`
check always succeeds (each branch of the map keeps the local index below
the region size), so the `MemoryError` branch is dead and not modelled. -/
def busRead (s : Bus) (address : Nat) : Nat :=
  if address = 0xff40 then s.display.LCDCONT
  else if address = 0xff42 then s.display.SCY
  else if address = 0xff43 then s.display.SCX
  else if address = 0xff44 then s.display.LY
  else if address = 0xff47 then s.display.BGPAL
  else
    match memory_map s address with
    | none => 0
    | some (r, offset) => regionGet s r (address - offset)

/-- Embeds `MemoryController.__setitem__`.  Notable source facts kept
bit-for-bit: the `LCDCONT` property setter stores `value % 0xff` (not
0x100); a write to 0xFF44 resets LY to 0; a write to 0xFF50 while the boot
ROM is active clears `boot_rom_active` and then falls through to the
ordinary write; writes below 0x8000 are bank-switch requests (`value mod
rom_banks`, 0 replaced by 1) and never touch ROM bytes — an out-of-range
bank index is caught (`IndexError`) and ignored, and when `rom_banks` is
`None` the Python raises `TypeError` at `value % None` with the state
exactly as returned here (`home` untouched); writes to 0xC000..0xDE00 are
mirrored to address+0x1000 and writes to 0xE000..0xFE00 to
address-0x1000. -/
def busWrite (s : Bus) (address value : Nat) : Bus :=
  if address = 0xff40 then { s with display.LCDCONT := value % 0xff }
  else if address = 0xff42 then { s with display.SCY := value }
  else if address = 0xff43 then { s with display.SCX := value }
  else if address = 0xff44 then { s with display.LY := 0 }
  else if address = 0xff47 then { s with display.BGPAL := value }
  else
    let s := if address = 0xff50 ∧ s.boot_rom_active = true then
        { s with boot_rom_active := false }
      else s
    if address < 0x8000 then
      match s.cartridge.rom_banks with
      | none => s
      | some n =>
        let value := value % n
        let value := if value = 0 then 1 else value
        if value < s.cartridge.rom_bank.length then { s with home := value }
        else s
    else
      match memory_map s address with
      | none => s
      | some (r, offset) =>
        let s := regionSet s r (address - offset) value
        if 0xc000 ≤ address ∧ address ≤ 0xde00 then
          regionSet s r (address + 0x1000 - offset) (value % 0x100)
        else if 0xe000 ≤ address ∧ address ≤ 0xfe00 then
          regionSet s r (address - 0x1000 - offset) (value % 0x100)
        else s

/-- Embeds `MemoryController.get16`: little-endian 16-bit read. -/
def get16 (s : Bus) (address : Nat) : Nat :=
  u8_to_u16 (busRead s (address + 1)) (busRead s address)

/-- Embeds `MemoryController.set16`: little-endian 16-bit write (high
byte first, at address+1). -/
def set16 (s : Bus) (address value : Nat) : Bus :=
  let hi := (u16_to_u8 value).1
  let lo := (u16_to_u8 value).2
  let s := busWrite s (address + 1) hi
  busWrite s address lo

/-- Embeds the mirroring loop at the end of `MemoryController.__init__`:
`for i in range(0xc000, 0xde01): self[i] = self[i+0x1000]`. -/
def initMirror (s : Bus) : Bus :=
  (List.range' 0xc000 0x1e01).foldl (fun s i => busWrite s i (busRead s (i + 0x1000))) s

/-- Embeds `MemoryController.__init__`.  The randomized power-on contents
of the RAM arrays are parameters (`random.randint` can produce any byte
pattern); the selected bank starts as `rom_bank[1]` and the boot ROM is
active; then the mirroring loop runs. -/
def mkMemoryController (boot_rom : ByteFn) (display : Display)
    (cartridge : Cartridge) (ewram internal_work_ram : ByteFn) : Bus :=
  initMirror
    { boot_rom := boot_rom
      display := display
      cartridge := cartridge
      ewram := ewram
      internal_work_ram := internal_work_ram
      home := 1
      boot_rom_active := true }

/-- Instruction argument kinds (opcodes.py `TYPE_*` constants). -/
inductive ArgType
  | void
  | d8
  | d16
  | a8
  | a16
  | r8
deriving DecidableEq

/-- Cycle cost: a single count, or a (taken, not taken) pair for
conditional instructions. -/
inductive Cycles
  | flat (n : Nat)
  | branch (taken notTaken : Nat)
deriving DecidableEq

/-- One slot of a flag-effect tuple: computed Z/N/H/C, force-0, force-1,
or the literal `None` appearing inside a tuple (leaves the bit alone). -/
inductive FlagEff
  | fZ
  | fN
  | fH
  | fC
  | f0
  | f1
  | fNone
deriving DecidableEq

/-- One row of the opcode tables: mnemonic, byte length, argument type,
cycles, flag effect. -/
structure OpEntry where
  name : String
  bytelen : Nat
  type : ArgType
  cycles : Cycles
  flags : Option (List FlagEff)

/-- Embeds `opcodes.add_0xff00_opcodes`: opcodes whose argument is added
to 0xFF00. -/
def add_0xff00_opcodes : List Nat := [0xe0, 0xf0]

set_option maxHeartbeats 2000000 in
/-- Embeds the primary opcode table `opcodes.opcodes`, key for key.  Gaps
in the source dictionary (0x39, 0x3a, 0x3b and every other absent key)
are `none`. -/
def opcodes : Nat → Option OpEntry := fun b =>
  match b with
  | 0x00 => some ⟨"NOP", 1, .void, .flat 4, none⟩
  | 0x01 => some ⟨"LD BC, d16", 3, .d16, .flat 12, none⟩
  | 0x02 => some ⟨"LD (BC), A", 1, .void, .flat 8, none⟩
  | 0x03 => some ⟨"INC BC", 1, .void, .flat 8, none⟩
  | 0x04 => some ⟨"INC B", 1, .void, .flat 4, some [.fZ, .f0, .fH]⟩
  | 0x05 => some ⟨"DEC B", 1, .void, .flat 4, some [.fZ, .f1, .fH]⟩
  | 0x06 => some ⟨"LD B, d8", 2, .d8, .flat 8, none⟩
  | 0x07 => some ⟨"RLCA", 1, .void, .flat 4, some [.f0, .f0, .f0, .fC]⟩
  | 0x08 => some ⟨"LD (a16), SP", 3, .a16, .flat 20, none⟩
  | 0x09 => some ⟨"ADD HL, BC", 1, .void, .flat 8, some [.fNone, .f0, .fH, .fC]⟩
  | 0x0a => some ⟨"LD A, (BC)", 1, .void, .flat 8, none⟩
  | 0x0b => some ⟨"DEC BC", 1, .void, .flat 8, none⟩
  | 0x0c => some ⟨"INC C", 1, .void, .flat 4, some [.fZ, .f0, .fH]⟩
  | 0x0d => some ⟨"DEC C", 1, .void, .flat 4, some [.fZ, .f1, .fH]⟩
  | 0x0e => some ⟨"LD C, d8", 2, .d8, .flat 8, none⟩
  | 0x0f => some ⟨"RRCA", 1, .void, .flat 4, some [.f0, .f0, .f0, .fC]⟩
  | 0x10 => some ⟨"STOP", 2, .void, .flat 4, none⟩
  | 0x11 => some ⟨"LD DE, d16", 3, .d16, .flat 12, none⟩
  | 0x12 => some ⟨"LD (DE), A", 1, .void, .flat 8, none⟩
  | 0x13 => some ⟨"INC DE", 1, .void, .flat 8, none⟩
  | 0x14 => some ⟨"INC D", 1, .void, .flat 4, some [.fZ, .f0, .fH]⟩
  | 0x15 => some ⟨"DEC D", 1, .void, .flat 4, some [.fZ, .f1, .fH]⟩
  | 0x16 => some ⟨"LD D, d8", 2, .d8, .flat 8, none⟩
  | 0x17 => some ⟨"RLA", 1, .void, .flat 4, none⟩
  | 0x18 => some ⟨"JR r8", 2, .r8, .flat 12, none⟩
  | 0x19 => some ⟨"ADD HL, DE", 1, .void, .flat 8, some [.fNone, .f0, .fH, .fC]⟩
  | 0x1a => some ⟨"LD A, (DE)", 1, .void, .flat 18, none⟩
  | 0x1b => some ⟨"DEC DE", 1, .void, .flat 8, none⟩
  | 0x1c => some ⟨"INC E", 1, .void, .flat 4, some [.fZ, .f0, .fH]⟩
  | 0x1d => some ⟨"DEC E", 1, .void, .flat 4, some [.fZ, .f1, .fH]⟩
  | 0x1e => some ⟨"LD E, d8", 2, .d8, .flat 8, none⟩
  | 0x1f => some ⟨"RRA", 1, .void, .flat 4, some [.f0, .f0, .f0, .fC]⟩
  | 0x20 => some ⟨"JR NZ, r8", 2, .r8, .branch 12 8, none⟩
  | 0x21 => some ⟨"LD HL, d16", 3, .d16, .flat 12, none⟩
  | 0x22 => some ⟨"LD (HL+), A", 1, .void, .flat 8, none⟩
  | 0x23 => some ⟨"INC HL", 1, .void, .flat 8, none⟩
  | 0x24 => some ⟨"INC H", 1, .void, .flat 4, some [.fZ, .f0, .fH]⟩
  | 0x25 => some ⟨"DEC H", 1, .void, .flat 4, some [.fZ, .f1, .fH]⟩
  | 0x26 => some ⟨"LD H, d8", 2, .d8, .flat 8, none⟩
  | 0x27 => some ⟨"DAA", 1, .void, .flat 4, some [.fZ, .fNone, .f0, .fC]⟩
  | 0x28 => some ⟨"JR Z, r8", 2, .void, .branch 12 8, none⟩
  | 0x29 => some ⟨"ADD HL, HL", 1, .void, .flat 8, some [.fNone, .f0, .fH, .fC]⟩
  | 0x2a => some ⟨"LD A, (HL+)", 1, .void, .flat 8, none⟩
  | 0x2b => some ⟨"DEC HL", 1, .void, .flat 8, none⟩
  | 0x2c => some ⟨"INC L", 1, .void, .flat 4, some [.fZ, .f0, .fH]⟩
  | 0x2d => some ⟨"DEC L", 1, .void, .flat 4, some [.fZ, .f1, .fH]⟩
  | 0x2e => some ⟨"LD L, d8", 2, .d8, .flat 8, none⟩
  | 0x2f => some ⟨"CPL", 1, .void, .flat 4, some [.fNone, .f1, .f1, .fNone]⟩
  | 0x30 => some ⟨"JR NC, r8", 2, .r8, .branch 12 8, none⟩
  | 0x31 => some ⟨"LD SP, d16", 3, .d16, .flat 12, none⟩
  | 0x32 => some ⟨"LD (HL-), A", 1, .void, .flat 8, none⟩
  | 0x33 => some ⟨"INC SP", 1, .void, .flat 8, none⟩
  | 0x34 => some ⟨"INC (HL)", 1, .void, .flat 12, some [.fZ, .f0, .fH]⟩
  | 0x35 => some ⟨"DEC (HL)", 1, .void, .flat 12, some [.fZ, .f1, .fH]⟩
  | 0x36 => some ⟨"LD (HL), d8", 2, .d8, .flat 12, none⟩
  | 0x37 => some ⟨"SCF", 1, .void, .flat 4, some [.fNone, .f0, .f0, .f1]⟩
  | 0x38 => some ⟨"JR C, r8", 2, .r8, .branch 12 8, none⟩
  | 0x3c => some ⟨"INC A", 1, .void, .flat 4, some [.fZ, .f0, .fH]⟩
  | 0x3d => some ⟨"DEC A", 1, .void, .flat 4, some [.fZ, .f1, .fH]⟩
  | 0x3e => some ⟨"LD A, d8", 2, .d8, .flat 8, none⟩
  | 0x3f => some ⟨"CCF", 1, .void, .flat 4, some [.fNone, .f0, .f0, .fC]⟩
  | 0x40 => some ⟨"LD B, B", 1, .void, .flat 4, none⟩
  | 0x41 => some ⟨"LD B, C", 1, .void, .flat 4, none⟩
  | 0x42 => some ⟨"LD B, D", 1, .void, .flat 4, none⟩
  | 0x43 => some ⟨"LD B, E", 1, .void, .flat 4, none⟩
  | 0x44 => some ⟨"LD B, H", 1, .void, .flat 4, none⟩
  | 0x45 => some ⟨"LD B, L", 1, .void, .flat 4, none⟩
  | 0x46 => some ⟨"LD B, (HL)", 1, .void, .flat 8, none⟩
  | 0x47 => some ⟨"LD B, A", 1, .void, .flat 4, none⟩
  | 0x48 => some ⟨"LD C, B", 1, .void, .flat 4, none⟩
  | 0x49 => some ⟨"LD C, C", 1, .void, .flat 4, none⟩
  | 0x4a => some ⟨"LD C, D", 1, .void, .flat 4, none⟩
  | 0x4b => some ⟨"LD C, E", 1, .void, .flat 4, none⟩
  | 0x4c => some ⟨"LD C, H", 1, .void, .flat 4, none⟩
  | 0x4d => some ⟨"LD C, L", 1, .void, .flat 4, none⟩
  | 0x4e => some ⟨"LD C, (HL)", 1, .void, .flat 8, none⟩
  | 0x4f => some ⟨"LD C, A", 1, .void, .flat 4, none⟩
  | 0x50 => some ⟨"LD D, B", 1, .void, .flat 4, none⟩
  | 0x51 => some ⟨"LD D, C", 1, .void, .flat 4, none⟩
  | 0x52 => some ⟨"LD D, D", 1, .void, .flat 4, none⟩
  | 0x53 => some ⟨"LD D, E", 1, .void, .flat 4, none⟩
  | 0x54 => some ⟨"LD D, H", 1, .void, .flat 4, none⟩
  | 0x55 => some ⟨"LD D, L", 1, .void, .flat 4, none⟩
  | 0x56 => some ⟨"LD D, (HL)", 1, .void, .flat 8, none⟩
  | 0x57 => some ⟨"LD D, A", 1, .void, .flat 4, none⟩
  | 0x58 => some ⟨"LD E, B", 1, .void, .flat 4, none⟩
  | 0x59 => some ⟨"LD E, C", 1, .void, .flat 4, none⟩
  | 0x5a => some ⟨"LD E, D", 1, .void, .flat 4, none⟩
  | 0x5b => some ⟨"LD E, E", 1, .void, .flat 4, none⟩
  | 0x5c => some ⟨"LD E, H", 1, .void, .flat 4, none⟩
  | 0x5d => some ⟨"LD E, L", 1, .void, .flat 4, none⟩
  | 0x5e => some ⟨"LD E, (HL)", 1, .void, .flat 8, none⟩
  | 0x5f => some ⟨"LD E, A", 1, .void, .flat 4, none⟩
  | 0x60 => some ⟨"LD H, B", 1, .void, .flat 4, none⟩
  | 0x61 => some ⟨"LD H, C", 1, .void, .flat 4, none⟩
  | 0x62 => some ⟨"LD H, D", 1, .void, .flat 4, none⟩
  | 0x63 => some ⟨"LD H, E", 1, .void, .flat 4, none⟩
  | 0x64 => some ⟨"LD H, H", 1, .void, .flat 4, none⟩
  | 0x65 => some ⟨"LD H, L", 1, .void, .flat 4, none⟩
  | 0x66 => some ⟨"LD H, (HL)", 1, .void, .flat 8, none⟩
  | 0x67 => some ⟨"LD H, A", 1, .void, .flat 4, none⟩
  | 0x68 => some ⟨"LD L, B", 1, .void, .flat 4, none⟩
  | 0x69 => some ⟨"LD L, C", 1, .void, .flat 4, none⟩
  | 0x6a => some ⟨"LD L, D", 1, .void, .flat 4, none⟩
  | 0x6b => some ⟨"LD L, E", 1, .void, .flat 4, none⟩
  | 0x6c => some ⟨"LD L, H", 1, .void, .flat 4, none⟩
  | 0x6d => some ⟨"LD L, L", 1, .void, .flat 4, none⟩
  | 0x6e => some ⟨"LD L, (HL)", 1, .void, .flat 8, none⟩
  | 0x6f => some ⟨"LD L, A", 1, .void, .flat 4, none⟩
  | 0x70 => some ⟨"LD (HL), B", 1, .void, .flat 8, none⟩
  | 0x71 => some ⟨"LD (HL), C", 1, .void, .flat 8, none⟩
  | 0x72 => some ⟨"LD (HL), D", 1, .void, .flat 8, none⟩
  | 0x73 => some ⟨"LD (HL), E", 1, .void, .flat 8, none⟩
  | 0x74 => some ⟨"LD (HL), H", 1, .void, .flat 8, none⟩
  | 0x75 => some ⟨"LD (HL), L", 1, .void, .flat 8, none⟩
  | 0x76 => some ⟨"HALT", 1, .void, .flat 4, none⟩
  | 0x77 => some ⟨"LD (HL), A", 1, .void, .flat 8, none⟩
  | 0x78 => some ⟨"LD A, B", 1, .void, .flat 4, none⟩
  | 0x79 => some ⟨"LD A, C", 1, .void, .flat 4, none⟩
  | 0x7a => some ⟨"LD A, B", 1, .void, .flat 4, none⟩
  | 0x7b => some ⟨"LD A, E", 1, .void, .flat 4, none⟩
  | 0x7c => some ⟨"LD A, H", 1, .void, .flat 4, none⟩
  | 0x7d => some ⟨"LD A, L", 1, .void, .flat 4, none⟩
  | 0x7e => some ⟨"LD A, (HL)", 1, .void, .flat 8, none⟩
  | 0x7f => some ⟨"LD A, A", 1, .void, .flat 4, none⟩
  | 0x80 => some ⟨"ADD A, B", 1, .void, .flat 4, some [.fZ, .f0, .fH, .fC]⟩
  | 0x81 => some ⟨"ADD A, C", 1, .void, .flat 4, some [.fZ, .f0, .fH, .fC]⟩
  | 0x82 => some ⟨"ADD A, D", 1, .void, .flat 4, some [.fZ, .f0, .fH, .fC]⟩
  | 0x83 => some ⟨"ADD A, E", 1, .void, .flat 4, some [.fZ, .f0, .fH, .fC]⟩
  | 0x84 => some ⟨"ADD A, H", 1, .void, .flat 4, some [.fZ, .f0, .fH, .fC]⟩
  | 0x85 => some ⟨"ADD A, L", 1, .void, .flat 4, some [.fZ, .f0, .fH, .fC]⟩
  | 0x86 => some ⟨"ADD A, (HL)", 1, .void, .flat 8, some [.fZ, .f0, .fH, .fC]⟩
  | 0x87 => some ⟨"ADC A, A", 1, .void, .flat 4, some [.fZ, .f0, .fH, .fC]⟩
  | 0x88 => some ⟨"ADC A, B", 1, .void, .flat 4, some [.fZ, .f0, .fH, .fC]⟩
  | 0x89 => some ⟨"ADC A, C", 1, .void, .flat 4, some [.fZ, .f0, .fH, .fC]⟩
  | 0x8a => some ⟨"ADC A, D", 1, .void, .flat 4, some [.fZ, .f0, .fH, .fC]⟩
  | 0x8b => some ⟨"ADC A, E", 1, .void, .flat 4, some [.fZ, .f0, .fH, .fC]⟩
  | 0x8c => some ⟨"ADC A, H", 1, .void, .flat 4, some [.fZ, .f0, .fH, .fC]⟩
  | 0x8d => some ⟨"ADC A, L", 1, .void, .flat 4, some [.fZ, .f0, .fH, .fC]⟩
  | 0x8e => some ⟨"ADC A, (HL)", 1, .void, .flat 8, some [.fZ, .f0, .fH, .fC]⟩
  | 0x8f => some ⟨"ADC A, A", 1, .void, .flat 4, some [.fZ, .f0, .fH, .fC]⟩
  | 0x90 => some ⟨"SUB B", 1, .void, .flat 4, some [.fZ, .f1, .fH, .fC]⟩
  | 0x91 => some ⟨"SUB C", 1, .void, .flat 4, some [.fZ, .f1, .fH, .fC]⟩
  | 0x92 => some ⟨"SUB D", 1, .void, .flat 4, some [.fZ, .f1, .fH, .fC]⟩
  | 0x93 => some ⟨"SUB E", 1, .void, .flat 4, some [.fZ, .f1, .fH, .fC]⟩
  | 0x94 => some ⟨"SUB H", 1, .void, .flat 4, some [.fZ, .f1, .fH, .fC]⟩
  | 0x95 => some ⟨"SUB L", 1, .void, .flat 4, some [.fZ, .f1, .fH, .fC]⟩
  | 0x96 => some ⟨"SUB (HL)", 1, .void, .flat 8, some [.fZ, .f1, .fH, .fC]⟩
  | 0x97 => some ⟨"SUB A", 1, .void, .flat 4, some [.fZ, .f1, .fH, .fC]⟩
  | 0x98 => some ⟨"SBC A, B", 1, .void, .flat 4, some [.fZ, .f1, .fH, .fC]⟩
  | 0x99 => some ⟨"SBC A, C", 1, .void, .flat 4, some [.fZ, .f1, .fH, .fC]⟩
  | 0x9a => some ⟨"SBC A, D", 1, .void, .flat 4, some [.fZ, .f1, .fH, .fC]⟩
  | 0x9b => some ⟨"SBC A, E", 1, .void, .flat 4, some [.fZ, .f1, .fH, .fC]⟩
  | 0x9c => some ⟨"SBC A, H", 1, .void, .flat 4, some [.fZ, .f1, .fH, .fC]⟩
  | 0x9d => some ⟨"SBC A, L", 1, .void, .flat 4, some [.fZ, .f1, .fH, .fC]⟩
  | 0x9e => some ⟨"SBC A, (HL)", 1, .void, .flat 8, some [.fZ, .f1, .fH, .fC]⟩
  | 0x9f => some ⟨"SBC A, A", 1, .void, .flat 4, some [.fZ, .f1, .fH, .fC]⟩
  | 0xa0 => some ⟨"AND B", 1, .void, .flat 4, some [.fZ, .f0, .f1, .f0]⟩
  | 0xa1 => some ⟨"AND C", 1, .void, .flat 4, some [.fZ, .f0, .f1, .f0]⟩
  | 0xa2 => some ⟨"AND D", 1, .void, .flat 4, some [.fZ, .f0, .f1, .f0]⟩
  | 0xa3 => some ⟨"AND E", 1, .void, .flat 4, some [.fZ, .f0, .f1, .f0]⟩
  | 0xa4 => some ⟨"AND H", 1, .void, .flat 4, some [.fZ, .f0, .f1, .f0]⟩
  | 0xa5 => some ⟨"AND L", 1, .void, .flat 4, some [.fZ, .f0, .f1, .f0]⟩
  | 0xa6 => some ⟨"AND (HL)", 1, .void, .flat 8, some [.fZ, .f0, .f1, .f0]⟩
  | 0xa7 => some ⟨"AND A", 1, .void, .flat 4, some [.fZ, .f0, .f1, .f0]⟩
  | 0xa8 => some ⟨"XOR B", 1, .void, .flat 4, some [.fZ, .f0, .f0, .f0]⟩
  | 0xa9 => some ⟨"XOR C", 1, .void, .flat 4, some [.fZ, .f0, .f0, .f0]⟩
  | 0xaa => some ⟨"XOR D", 1, .void, .flat 4, some [.fZ, .f0, .f0, .f0]⟩
  | 0xab => some ⟨"XOR E", 1, .void, .flat 4, some [.fZ, .f0, .f0, .f0]⟩
  | 0xac => some ⟨"XOR H", 1, .void, .flat 4, some [.fZ, .f0, .f0, .f0]⟩
  | 0xad => some ⟨"XOR L", 1, .void, .flat 4, some [.fZ, .f0, .f0, .f0]⟩
  | 0xae => some ⟨"XOR (HL)", 1, .void, .flat 8, some [.fZ, .f0, .f0, .f0]⟩
  | 0xaf => some ⟨"XOR A", 1, .void, .flat 4, some [.fZ, .f0, .f0, .f0]⟩
  | 0xb0 => some ⟨"OR B", 1, .void, .flat 4, some [.fZ, .f0, .f0, .f0]⟩
  | 0xb1 => some ⟨"OR C", 1, .void, .flat 4, some [.fZ, .f0, .f0, .f0]⟩
  | 0xb2 => some ⟨"OR D", 1, .void, .flat 4, some [.fZ, .f0, .f0, .f0]⟩
  | 0xb3 => some ⟨"OR E", 1, .void, .flat 4, some [.fZ, .f0, .f0, .f0]⟩
  | 0xb4 => some ⟨"OR H", 1, .void, .flat 4, some [.fZ, .f0, .f0, .f0]⟩
  | 0xb5 => some ⟨"OR L", 1, .void, .flat 4, some [.fZ, .f0, .f0, .f0]⟩
  | 0xb6 => some ⟨"OR (HL)", 1, .void, .flat 8, some [.fZ, .f0, .f0, .f0]⟩
  | 0xb7 => some ⟨"OR A", 1, .void, .flat 4, some [.fZ, .f0, .f0, .f0]⟩
  | 0xb8 => some ⟨"CP B", 1, .void, .flat 4, some [.fZ, .f1, .fH, .fC]⟩
  | 0xb9 => some ⟨"CP C", 1, .void, .flat 4, some [.fZ, .f1, .fH, .fC]⟩
  | 0xba => some ⟨"CP D", 1, .void, .flat 4, some [.fZ, .f1, .fH, .fC]⟩
  | 0xbb => some ⟨"CP E", 1, .void, .flat 4, some [.fZ, .f1, .fH, .fC]⟩
  | 0xbc => some ⟨"CP H", 1, .void, .flat 4, some [.fZ, .f1, .fH, .fC]⟩
  | 0xbd => some ⟨"CP L", 1, .void, .flat 4, some [.fZ, .f1, .fH, .fC]⟩
  | 0xbe => some ⟨"CP (HL)", 1, .void, .flat 8, some [.fZ, .f1, .fH, .fC]⟩
  | 0xbf => some ⟨"CP A", 1, .void, .flat 4, some [.fZ, .f1, .fH, .fC]⟩
  | 0xc0 => some ⟨"RET NZ", 1, .void, .branch 20 8, none⟩
  | 0xc1 => some ⟨"POP BC", 1, .void, .flat 12, none⟩
  | 0xc2 => some ⟨"JP NZ, a16", 3, .a16, .branch 16 12, none⟩
  | 0xc3 => some ⟨"JP a16", 3, .a16, .flat 16, none⟩
  | 0xc4 => some ⟨"CALL NZ, a16", 3, .a16, .branch 24 12, none⟩
  | 0xc5 => some ⟨"PUSH BC", 1, .void, .flat 16, none⟩
  | 0xc6 => some ⟨"ADD A, d8", 2, .void, .flat 8, some [.fZ, .f0, .fH, .fC]⟩
  | 0xc7 => some ⟨"RST 00H", 1, .void, .flat 16, none⟩
  | 0xc8 => some ⟨"RET Z", 1, .void, .branch 20 8, none⟩
  | 0xc9 => some ⟨"RET", 1, .void, .flat 16, none⟩
  | 0xca => some ⟨"JP Z, a16", 3, .a16, .branch 16 12, none⟩
  | 0xcb => some ⟨"PREFIX CB", 1, .void, .flat 4, none⟩
  | 0xcc => some ⟨"CALL Z, a16", 3, .a16, .branch 24 12, none⟩
  | 0xcd => some ⟨"CALL a16", 3, .a16, .flat 24, none⟩
  | 0xce => some ⟨"ADC A, d8", 2, .d8, .flat 8, some [.fZ, .f0, .fH, .fC]⟩
  | 0xcf => some ⟨"RST 08H", 1, .void, .flat 16, none⟩
  | 0xd0 => some ⟨"RET NC", 1, .void, .branch 20 8, none⟩
  | 0xd1 => some ⟨"POP DE", 1, .void, .flat 12, none⟩
  | 0xd2 => some ⟨"JP NC, a16", 1, .a16, .branch 16 12, none⟩
  | 0xd3 => some ⟨"-", 1, .void, .flat 0, none⟩
  | 0xd4 => some ⟨"CALL NC, a16", 3, .a16, .branch 24 12, none⟩
  | 0xd5 => some ⟨"PUSH DE", 1, .void, .flat 16, none⟩
  | 0xd6 => some ⟨"SUB d8", 2, .d8, .flat 8, some [.fZ, .f1, .fH, .fC]⟩
  | 0xd7 => some ⟨"RST 10H", 1, .void, .flat 16, none⟩
  | 0xd8 => some ⟨"RET C", 1, .void, .branch 20 8, none⟩
  | 0xd9 => some ⟨"RETI", 1, .void, .flat 16, none⟩
  | 0xda => some ⟨"JP C, a16", 3, .a16, .branch 20 12, none⟩
  | 0xdb => some ⟨"-", 1, .void, .flat 0, none⟩
  | 0xdc => some ⟨"CALL C, a16", 3, .a16, .branch 24 12, none⟩
  | 0xdd => some ⟨"-", 1, .void, .flat 0, none⟩
  | 0xde => some ⟨"SBC A, d8", 2, .d8, .flat 8, some [.fZ, .f1, .fH, .fC]⟩
  | 0xdf => some ⟨"RST 18H", 1, .void, .flat 16, none⟩
  | 0xe0 => some ⟨"LD (a8), A", 2, .a8, .flat 12, none⟩
  | 0xe1 => some ⟨"POP HL", 1, .void, .flat 12, none⟩
  | 0xe2 => some ⟨"LD ($ff00+C), A", 1, .void, .flat 8, none⟩
  | 0xe3 => some ⟨"-", 1, .void, .flat 0, none⟩
  | 0xe4 => some ⟨"-", 1, .void, .flat 0, none⟩
  | 0xe5 => some ⟨"PUSH HL", 1, .void, .flat 16, none⟩
  | 0xe6 => some ⟨"AND d8", 2, .d8, .flat 8, some [.fZ, .f0, .f1, .f0]⟩
  | 0xe7 => some ⟨"RST 20H", 1, .void, .flat 16, none⟩
  | 0xe8 => some ⟨"ADD SP, r8", 2, .r8, .flat 16, some [.f0, .f0, .fH, .fC]⟩
  | 0xe9 => some ⟨"JP (HL)", 1, .void, .flat 4, none⟩
  | 0xea => some ⟨"LD (a16), A", 3, .a16, .flat 16, none⟩
  | 0xeb => some ⟨"-", 1, .void, .flat 0, none⟩
  | 0xec => some ⟨"-", 1, .void, .flat 0, none⟩
  | 0xed => some ⟨"-", 1, .void, .flat 0, none⟩
  | 0xee => some ⟨"XOR d8", 2, .r8, .flat 8, some [.fZ, .f0, .f0, .f0]⟩
  | 0xef => some ⟨"RST 28H", 1, .void, .flat 16, none⟩
  | 0xf0 => some ⟨"LDH A, (a8)", 2, .a8, .flat 12, none⟩
  | 0xf1 => some ⟨"POP AF", 1, .void, .flat 12, some [.fZ, .fN, .fH, .fC]⟩
  | 0xf2 => some ⟨"LD A, (C)", 2, .void, .flat 8, none⟩
  | 0xf3 => some ⟨"DI", 1, .void, .flat 4, none⟩
  | 0xf4 => some ⟨"-", 1, .void, .flat 0, none⟩
  | 0xf5 => some ⟨"PUSH AF", 1, .void, .flat 16, none⟩
  | 0xf6 => some ⟨"OR d8", 2, .d8, .flat 8, none⟩
  | 0xf7 => some ⟨"RST 30H", 1, .void, .flat 16, none⟩
  | 0xf8 => some ⟨"LD HL, SP+r8", 2, .r8, .flat 12, some [.f0, .f0, .fH, .fC]⟩
  | 0xf9 => some ⟨"LD SP, HL", 1, .void, .flat 8, none⟩
  | 0xfa => some ⟨"LD A, (a16)", 3, .a16, .flat 16, none⟩
  | 0xfb => some ⟨"EI", 1, .void, .flat 4, none⟩
  | 0xfc => some ⟨"-", 1, .void, .flat 0, none⟩
  | 0xfd => some ⟨"-", 1, .void, .flat 0, none⟩
  | 0xfe => some ⟨"CP d8", 2, .d8, .flat 8, some [.fZ, .f1, .fH, .fC]⟩
  | 0xff => some ⟨"RST 38H", 1, .void, .flat 16, none⟩
  | _ => none

/-- Embeds the CB-prefixed table `opcodes.extended_opcodes`, key for
key. -/
def extended_opcodes : Nat → Option OpEntry := fun b =>
  match b with
  | 0x11 => some ⟨"RL C", 1, .void, .flat 8, some [.fZ, .f0, .f0, .fC]⟩
  | 0x30 => some ⟨"SWAP B", 2, .void, .flat 8, some [.fZ, .f0, .f0, .f0]⟩
  | 0x31 => some ⟨"SWAP C", 2, .void, .flat 8, some [.fZ, .f0, .f0, .f0]⟩
  | 0x32 => some ⟨"SWAP D", 2, .void, .flat 8, some [.fZ, .f0, .f0, .f0]⟩
  | 0x33 => some ⟨"SWAP E", 2, .void, .flat 8, some [.fZ, .f0, .f0, .f0]⟩
  | 0x34 => some ⟨"SWAP H", 2, .void, .flat 8, some [.fZ, .f0, .f0, .f0]⟩
  | 0x35 => some ⟨"SWAP L", 2, .void, .flat 8, some [.fZ, .f0, .f0, .f0]⟩
  | 0x36 => some ⟨"SWAP (HL)", 2, .void, .flat 8, some [.fZ, .f0, .f0, .f0]⟩
  | 0x37 => some ⟨"SWAP A", 2, .void, .flat 8, some [.fZ, .f0, .f0, .f0]⟩
  | 0x7c => some ⟨"BIT 7, H", 1, .void, .flat 8, some [.fZ, .f0, .f1]⟩
  | _ => none

/-- CPU state (cpu.py, class `CPU`).  `registers` is the 12-byte array
holding PC, SP, AF, BC, DE, HL in that order (big-endian pairs);
`memory` is the bus; `screen_cycles` is the per-scanline cycle budget
computed in `__init__` from the float constants
`int(4.194304e6 / 59.7 / 154) = 456` (kept as a field since the model does
not evaluate floats).  The wall-clock `start` field is untracked. -/
structure CPU where
  memory : Bus
  registers : ByteFn
  IME : Bool
  cycles : Nat
  total_cycles : Nat
  screen_cycles : Nat

/-- Modelled from the spec: `get16be` is imported by cpu.py from the
utilities module but absent from the source tree.  Spec §2.8 lists
"big-endian/little-endian 16-bit pack/unpack" among the utilities and §3
says the paired register views "read/write two 8-bit registers as a
single 16-bit big-endian value" with `pack(hi, lo) = (hi<<8)|lo` (§8), the
byte array being the single source of truth (§9). -/
def get16be (regs : ByteFn) (i : Nat) : Nat :=
  regs i <<< 8 ||| regs (i + 1)

/-- Modelled from the spec: `set16be` (see `get16be`): store a 16-bit
value big-endian into bytes i and i+1, wrapping 16-bit results modulo
0x10000 (spec §9, "wrap ... 16-bit results modulo 0x10000"). -/
def set16be (regs : ByteFn) (i : Nat) (v : Int) : ByteFn :=
  let w := (v % 0x10000).toNat
  updFn (updFn regs i (w >>> 8)) (i + 1) (w &&& 0xff)

/-- Embeds the `Register8.__set__` descriptor: store `value % 0x100`. -/
def setReg8 (regs : ByteFn) (i : Nat) (v : Int) : ByteFn :=
  updFn regs i (v % 0x100).toNat

/-- Program counter (register bytes 0-1). -/
def CPU.PC (c : CPU) : Nat := get16be c.registers 0

/-- Stack pointer (register bytes 2-3). -/
def CPU.SP (c : CPU) : Nat := get16be c.registers 2

/-- Paired register AF (bytes 4-5). -/
def CPU.AF (c : CPU) : Nat := get16be c.registers 4

/-- Paired register BC (bytes 6-7). -/
def CPU.BC (c : CPU) : Nat := get16be c.registers 6

/-- Paired register DE (bytes 8-9). -/
def CPU.DE (c : CPU) : Nat := get16be c.registers 8

/-- Paired register HL (bytes 10-11). -/
def CPU.HL (c : CPU) : Nat := get16be c.registers 10

/-- Accumulator A (register byte 4). -/
def CPU.A (c : CPU) : Nat := c.registers 4

/-- Flag byte F (register byte 5). -/
def CPU.F (c : CPU) : Nat := c.registers 5

/-- Register B (byte 6). -/
def CPU.B (c : CPU) : Nat := c.registers 6

/-- Register C (byte 7). -/
def CPU.C (c : CPU) : Nat := c.registers 7

/-- Register D (byte 8). -/
def CPU.D (c : CPU) : Nat := c.registers 8

/-- Register E (byte 9). -/
def CPU.E (c : CPU) : Nat := c.registers 9

/-- Register H (byte 10). -/
def CPU.H (c : CPU) : Nat := c.registers 10

/-- Register L (byte 11). -/
def CPU.L (c : CPU) : Nat := c.registers 11

/-- Write PC through the `Register16` descriptor. -/
def CPU.setPC (c : CPU) (v : Int) : CPU := { c with registers := set16be c.registers 0 v }

/-- Write SP through the `Register16` descriptor. -/
def CPU.setSP (c : CPU) (v : Int) : CPU := { c with registers := set16be c.registers 2 v }

/-- Write AF through the `Register16` descriptor. -/
def CPU.setAF (c : CPU) (v : Int) : CPU := { c with registers := set16be c.registers 4 v }

/-- Write BC through the `Register16` descriptor. -/
def CPU.setBC (c : CPU) (v : Int) : CPU := { c with registers := set16be c.registers 6 v }

/-- Write DE through the `Register16` descriptor. -/
def CPU.setDE (c : CPU) (v : Int) : CPU := { c with registers := set16be c.registers 8 v }

/-- Write HL through the `Register16` descriptor. -/
def CPU.setHL (c : CPU) (v : Int) : CPU := { c with registers := set16be c.registers 10 v }

/-- Write A through the `Register8` descriptor. -/
def CPU.setA (c : CPU) (v : Int) : CPU := { c with registers := setReg8 c.registers 4 v }

/-- Write F through the `Register8` descriptor. -/
def CPU.setF (c : CPU) (v : Int) : CPU := { c with registers := setReg8 c.registers 5 v }

/-- Write B through the `Register8` descriptor. -/
def CPU.setB (c : CPU) (v : Int) : CPU := { c with registers := setReg8 c.registers 6 v }

/-- Write C through the `Register8` descriptor. -/
def CPU.setC (c : CPU) (v : Int) : CPU := { c with registers := setReg8 c.registers 7 v }

/-- Write D through the `Register8` descriptor. -/
def CPU.setD (c : CPU) (v : Int) : CPU := { c with registers := setReg8 c.registers 8 v }

/-- Write E through the `Register8` descriptor. -/
def CPU.setE (c : CPU) (v : Int) : CPU := { c with registers := setReg8 c.registers 9 v }

/-- Write H through the `Register8` descriptor. -/
def CPU.setH (c : CPU) (v : Int) : CPU := { c with registers := setReg8 c.registers 10 v }

/-- Write L through the `Register8` descriptor. -/
def CPU.setL (c : CPU) (v : Int) : CPU := { c with registers := setReg8 c.registers 11 v }

/-- Embeds the `Z_flag` property getter: `(F & 0b10000000) >> 7`. -/
def CPU.Z_flag (c : CPU) : Nat := (c.F &&& 0b10000000) >>> 7

/-- Embeds the `N_flag` property getter. -/
def CPU.N_flag (c : CPU) : Nat := (c.F &&& 0b01000000) >>> 6

/-- Embeds the `H_flag` property getter. -/
def CPU.H_flag (c : CPU) : Nat := (c.F &&& 0b00100000) >>> 5

/-- Embeds the `C_flag` property getter. -/
def CPU.C_flag (c : CPU) : Nat := (c.F &&& 0b00010000) >>> 4

/-- Embeds the `Z_flag` setter (truthiness of the Python value is the
`Bool` here): set or clear bit 7 of F. -/
def CPU.setZflag (c : CPU) (value : Bool) : CPU :=
  if value then c.setF ((c.F ||| 1 <<< 7 : Nat) : Int) else c.setF ((c.F &&& 0b01111111 : Nat) : Int)

/-- Embeds the `N_flag` setter: bit 6 of F. -/
def CPU.setNflag (c : CPU) (value : Bool) : CPU :=
  if value then c.setF ((c.F ||| 1 <<< 6 : Nat) : Int) else c.setF ((c.F &&& 0b10111111 : Nat) : Int)

/-- Embeds the `H_flag` setter: bit 5 of F. -/
def CPU.setHflag (c : CPU) (value : Bool) : CPU :=
  if value then c.setF ((c.F ||| 1 <<< 5 : Nat) : Int) else c.setF ((c.F &&& 0b11011111 : Nat) : Int)

/-- Embeds the `C_flag` setter: bit 4 of F. -/
def CPU.setCflag (c : CPU) (value : Bool) : CPU :=
  if value then c.setF ((c.F ||| 1 <<< 4 : Nat) : Int) else c.setF ((c.F &&& 0b11101111 : Nat) : Int)

/-- Read one byte of memory through the bus. -/
def CPU.rd (c : CPU) (a : Nat) : Nat := busRead c.memory a

/-- Write one byte of memory through the bus. -/
def CPU.wr (c : CPU) (a v : Nat) : CPU := { c with memory := busWrite c.memory a v }

/-- Embeds `CPU.push`: `self.memory.set16(self.SP, nn); self.SP -= 2`. -/
def CPU.push (c : CPU) (nn : Nat) : CPU :=
  let c := { c with memory := set16 c.memory c.SP nn }
  c.setSP ((c.SP : Int) - 2)

/-- Embeds `CPU.pop`: `self.SP += 2; return self.memory.get16(self.SP)`.
Returns the updated CPU and the popped value. -/
def CPU.pop (c : CPU) : CPU × Nat :=
  let c := c.setSP ((c.SP : Int) + 2)
  (c, get16 c.memory c.SP)

/-- Embeds `CPU.jmp`: `self.PC = nn`. -/
def CPU.jmp (c : CPU) (nn : Int) : CPU := c.setPC nn

/-- Embeds `CPU.call`: push PC, then jump. -/
def CPU.call (c : CPU) (nn : Int) : CPU :=
  let c := c.push c.PC
  c.setPC nn

/-- Embeds `CPU.ret`: pop into PC. -/
def CPU.ret (c : CPU) : CPU :=
  let (c, v) := c.pop
  c.setPC v

/-- Embeds `CPU.rst`: call through the vector stored at nn. -/
def CPU.rst (c : CPU) (nn : Nat) : CPU :=
  c.call (get16 c.memory nn)

/-- Embeds `CPU.fetch`: read the byte at PC. -/
def CPU.fetch (c : CPU) : Nat := busRead c.memory c.PC

/-- The Python exception classes that can escape a CPU step
(errors.py, plus the builtin `KeyError`/`TypeError`).  Message strings are
not modelled.  `invalidOpcodeError` is the `InvalidOpcodeError` subclass of
`OpcodeError`; `notImplemented` is the `EmulatorError` produced by
`CPU.not_implemented`. -/
inductive Exc
  | memoryError
  | opcodeError
  | invalidOpcodeError
  | emulatorError
  | notImplemented
  | keyError
  | typeError
deriving DecidableEq

/-- The tuple returned by `CPU.decode`. -/
structure Decoded where
  name : String
  opcode : Nat
  bytelen : Nat
  cycles : Cycles
  flags : Option (List FlagEff)
  arg : Option Int
  raw : List Nat

/-- Result of `CPU.decode`: either the advanced CPU with the decoded
instruction, or an exception together with the CPU state at the moment of
the raise. -/
inductive DecodeResult
  | ok (c : CPU) (d : Decoded)
  | err (e : Exc) (c : CPU)

/-- Result of `CPU.execute` / `CPU.step`: the new CPU state, or an
exception together with the state at the moment of the raise (Python
mutates in place, so partial effects before a raise persist). -/
inductive StepResult
  | ok (c : CPU)
  | err (e : Exc) (c : CPU)

/-- CPU state carried by a step result (the Python object after the call,
whether or not an exception escaped). -/
def StepResult.state : StepResult → CPU
  | .ok c => c
  | .err _ c => c

/-- Whether a step result is a normal return. -/
def StepResult.isOk : StepResult → Bool
  | .ok _ => true
  | .err _ _ => false

/-- Embeds `cycles += xcycles` in the two prefix branches of
`CPU.decode`; both operands are single counts there (a pair would raise
`TypeError` in Python, which never happens for the prefix entries). -/
def addCycles : Cycles → Cycles → Cycles
  | .flat a, .flat b => .flat (a + b)
  | a, _ => a

/-- Resolve an unconditional cycle cost.  Every call reaching this helper
passes a `flat` count: a `branch` pair that survives to
`self.cycles += cycles` would raise `TypeError` in Python, and all pair
entries belong to conditional opcodes that overwrite `cycles`. -/
def Cycles.asFlat : Cycles → Nat
  | .flat n => n
  | .branch t _ => t

/-- Embeds the argument-decoding tail of `CPU.decode` (cpu.py lines
165-183): accumulate `bytelen - 1` bytes following PC little-endian,
reinterpret as signed for `r8`, add 0xFF00 for the two a8 opcodes, then
advance PC by `bytelen`. -/
def decodeArgs (c : CPU) (name : String) (opcode bytelen : Nat)
    (ty : ArgType) (cyc : Cycles) (fl : Option (List FlagEff))
    (raw : List Nat) : CPU × Decoded :=
  let argBytes := (List.range (bytelen - 1)).map (fun k => busRead c.memory (c.PC + (k + 1)))
  let raw := raw ++ argBytes
  let arg : Option Int :=
    if bytelen > 1 then
      let a : Nat := (List.range (bytelen - 1)).foldl
        (fun a k => a ||| busRead c.memory (c.PC + (k + 1)) <<< (8 * k)) 0
      let a : Int := if ty = .r8 then u8_to_signed a else (a : Int)
      let a : Int := if opcode ∈ add_0xff00_opcodes then a + 0xff00 else a
      some a
    else none
  let c := c.setPC ((c.PC : Int) + bytelen)
  (c, ⟨name, opcode, bytelen, cyc, fl, arg, raw⟩)

/-- Embeds `CPU.decode`.  An unknown primary opcode raises `OpcodeError`
before anything is mutated.  The 0xCB prefix advances PC, fetches the
extended opcode and merges cycles; an extended opcode missing from the CB
table escapes as a raw `KeyError` (that lookup sits outside the
`try` block).  The 0x10 prefix re-reads the 0x10 row itself. -/
def CPU.decode (c : CPU) (opcode0 : Nat) : DecodeResult :=
  match opcodes opcode0 with
  | none => .err .opcodeError c
  | some e0 =>
    if opcode0 = 0xcb then
      let c := c.setPC ((c.PC : Int) + e0.bytelen)
      let opcode := c.fetch
      match extended_opcodes opcode with
      | none => .err .keyError c
      | some ex =>
        let (c, d) := decodeArgs c ex.name opcode ex.bytelen ex.type
          (addCycles e0.cycles ex.cycles) ex.flags [0xcb, opcode]
        .ok c d
    else if opcode0 = 0x10 then
      let c := c.setPC ((c.PC : Int) + e0.bytelen)
      let opcode := c.fetch
      match opcodes 0x10 with
      | none => .err .opcodeError c
      | some ex =>
        let (c, d) := decodeArgs c ex.name opcode ex.bytelen ex.type
          (addCycles e0.cycles ex.cycles) ex.flags [0x10, opcode]
        .ok c d
    else
      let (c, d) := decodeArgs c e0.name opcode0 e0.bytelen e0.type
        e0.cycles e0.flags [opcode0]
      .ok c d

/-- Local flag values computed by an instruction body, plus the resolved
cycle count; `none` is the Python `None` (leave the flag bit alone). -/
structure ExecEffect where
  c : CPU
  Z : Option Bool := none
  N : Option Bool := none
  H : Option Bool := none
  Cf : Option Bool := none
  cyc : Nat

/-- Result of an instruction body. -/
inductive ExecOut
  | ok (eff : ExecEffect)
  | err (e : Exc) (c : CPU)

/-- Embeds one slot of the flag-effect application loop at the end of
`CPU.execute` (cpu.py lines 1164-1178).  A literal 0 clears and a literal
1 sets the bit at `shift`; the `"Z"`, `"N"`, `"H"`, `"C"` markers call the
corresponding property setter (ignoring `shift`, exactly as the source
does) when the instruction computed a value; `None` slots fall through
every test and leave F alone. -/
def applyFlagSlot (c : CPU) (shift : Nat) (flag : FlagEff)
    (Z N H Cf : Option Bool) : CPU :=
  match flag with
  | .f0 => c.setF ((c.F : Int).land (-(((1 <<< shift : Nat) : Int)) - 1))
  | .f1 => c.setF ((c.F ||| 1 <<< shift : Nat) : Int)
  | .fZ => match Z with | some z => c.setZflag z | none => c
  | .fH => match H with | some h => c.setHflag h | none => c
  | .fN => match N with | some n => c.setNflag n | none => c
  | .fC => match Cf with | some b => c.setCflag b | none => c
  | .fNone => c

/-- Embeds the flag-effect application loop: zip the flag tuple against
the shifts (7, 6, 5, 4); a 3-tuple therefore never touches the carry
slot. -/
def applyFlags (c : CPU) (flags : Option (List FlagEff))
    (Z N H Cf : Option Bool) : CPU :=
  match flags with
  | none => c
  | some fl =>
    (List.zip [7, 6, 5, 4] fl).foldl
      (fun c p => applyFlagSlot c p.1 p.2 Z N H Cf) c

/-- Embeds `cycles[0]` on a (taken, not taken) pair; the `flat` fallback
is dead (Python would raise `TypeError` indexing an int, and every opcode
that selects a component has a pair in the table). -/
def Cycles.idx0 : Cycles → Nat
  | .branch t _ => t
  | .flat n => n

/-- Embeds `cycles[1]`; `flat` fallback dead as in `Cycles.idx0`. -/
def Cycles.idx1 : Cycles → Nat
  | .branch _ nt => nt
  | .flat n => n

set_option maxHeartbeats 4000000 in
/-- Embeds the instruction dispatch of `CPU.execute` (cpu.py lines
295-1162), branch for branch, including the slips present in the source:
CB 0x60 (`BIT 4, B`) mutates B; 0x1b runs `RR E` under the table name
`DEC DE`; 0x48 and 0x4c compare instead of assigning (`self.C == self.B`)
and so do nothing; 0x7a loads A from B; 0x8b, 0x8d and 0x8f add the wrong
operand; 0xc0 picks `cycles[1]` on the taken path; 0xdc calls through
register C; 0xe9 jumps to the byte read from memory at HL.  `arg.getD 0`
stands for the decoded argument, present whenever the byte length in the
table exceeds 1 (a `None` argument reaching arithmetic would be a Python
`TypeError`; no table-consistent call does that). -/
def executeBody (c : CPU) (opcode : Nat) (cycles : Cycles)
    (raw : List Nat) (arg : Option Int) : ExecOut :=
  let a0 := arg.getD 0
  if raw.headD 0 = 0xcb then
    match opcode with
    | 0x11 => -- RL C
      let Cf := (c.C &&& (1 <<< 7)) >>> 7
      let c := c.setC (((c.C <<< 1) &&& 0xff : Nat))
      let c := c.setC ((c.C ||| c.C_flag : Nat))
      .ok { c := c, Z := some (c.C == 0), Cf := some (Cf != 0), cyc := cycles.asFlat }
    | 0x60 => -- BIT 4, B (source also mutates B)
      let c := c.setB ((c.B ||| 0b00001000 : Nat))
      .ok { c := c, Z := some ((c.B &&& (1 <<< 4)) == 0), cyc := cycles.asFlat }
    | 0x6b => -- BIT 5, E
      .ok { c := c, Z := some ((c.E &&& (1 <<< 5)) == 0), cyc := cycles.asFlat }
    | 0x7c => -- BIT 7, H
      .ok { c := c, Z := some ((c.H &&& (1 <<< 7)) == 0), cyc := cycles.asFlat }
    | 0x21 => -- SLA C
      let Cf := (c.C &&& (1 <<< 7)) >>> 7
      let c := c.setC ((c.C <<< 1 : Nat))
      .ok { c := c, Z := some (c.C == 0), Cf := some (Cf != 0), cyc := cycles.asFlat }
    | 0x30 => -- SWAP B
      let c := c.setB (swap8 c.B)
      .ok { c := c, Z := some (c.B == 0), cyc := cycles.asFlat }
    | 0x31 => -- SWAP C
      let c := c.setC (swap8 c.C)
      .ok { c := c, Z := some (c.C == 0), cyc := cycles.asFlat }
    | 0x32 => -- SWAP D
      let c := c.setD (swap8 c.D)
      .ok { c := c, Z := some (c.D == 0), cyc := cycles.asFlat }
    | 0x33 => -- SWAP E
      let c := c.setE (swap8 c.E)
      .ok { c := c, Z := some (c.E == 0), cyc := cycles.asFlat }
    | 0x34 => -- SWAP H
      let c := c.setH (swap8 c.H)
      .ok { c := c, Z := some (c.H == 0), cyc := cycles.asFlat }
    | 0x35 => -- SWAP L
      let c := c.setL (swap8 c.L)
      .ok { c := c, Z := some (c.L == 0), cyc := cycles.asFlat }
    | 0x36 => -- SWAP (HL)
      let value := swap8 (c.rd c.HL)
      let c := c.wr c.HL value
      .ok { c := c, Z := some (value == 0), cyc := cycles.asFlat }
    | 0x37 => -- SWAP A
      let c := c.setA (swap8 c.A)
      .ok { c := c, Z := some (c.A == 0), cyc := cycles.asFlat }
    | _ => .err .emulatorError c
  else if raw.headD 0 = 0x10 then
    match opcode with
    | 0x10 => .err .notImplemented c -- STOP
    | _ => .err .emulatorError c
  else
    match opcode with
    | 0x00 => -- NOP
      .ok { c := c, cyc := cycles.asFlat }
    | 0x01 => -- LD BC, d16
      .ok { c := c.setBC a0, cyc := cycles.asFlat }
    | 0x02 => -- LD (BC), A
      .ok { c := c.wr c.BC c.A, cyc := cycles.asFlat }
    | 0x03 => -- INC BC
      .ok { c := c.setBC ((c.BC : Int) + 1), cyc := cycles.asFlat }
    | 0x04 => -- INC B
      let Hf := (c.B &&& 0x0f) == 0b1111
      let c := c.setB ((c.B : Int) + 1)
      .ok { c := c, Z := some (c.B == 0), H := some Hf, cyc := cycles.asFlat }
    | 0x05 => -- DEC B (note the source half-carry uses % 0xf)
      let Hf := (c.B % 0xf) == 0b0000
      let c := c.setB ((c.B : Int) - 1)
      .ok { c := c, Z := some (c.B == 0), H := some Hf, cyc := cycles.asFlat }
    | 0x06 => -- LD B, d8
      .ok { c := c.setB a0, cyc := cycles.asFlat }
    | 0x07 => -- RLCA (sets the carry property directly)
      let c := c.setCflag ((((c.A &&& (1 <<< 7)) >>> 7)) != 0)
      let c := c.setA ((c.A <<< 1 : Nat))
      .ok { c := c, cyc := cycles.asFlat }
    | 0x08 => -- LD (a16), SP
      .ok { c := { c with memory := set16 c.memory a0.toNat c.SP }, cyc := cycles.asFlat }
    | 0x09 => -- ADD HL, BC
      let n := c.HL + c.BC
      let c := c.setHL (n : Nat)
      .ok { c := c, Cf := some (decide (n > 0xffff)), cyc := cycles.asFlat }
    | 0x0a => -- LD A, (BC)
      .ok { c := c.setA (c.rd c.BC), cyc := cycles.asFlat }
    | 0x0b => -- DEC BC
      .ok { c := c.setBC ((c.BC : Int) - 1), cyc := cycles.asFlat }
    | 0x0c => -- INC C
      let Hf := (c.C &&& 0x0f) == 0b1111
      let c := c.setC ((c.C : Int) + 1)
      .ok { c := c, Z := some (c.C == 0), H := some Hf, cyc := cycles.asFlat }
    | 0x0d => -- DEC C
      let Hf := (c.C % 0xf) == 0b0000
      let c := c.setC ((c.C : Int) - 1)
      .ok { c := c, Z := some (c.C == 0), H := some Hf, cyc := cycles.asFlat }
    | 0x0e => -- LD C, d8
      .ok { c := c.setC a0, cyc := cycles.asFlat }
    | 0x0f => -- RRCA
      let Cf := c.A &&& 0x1
      let c := c.setA ((c.A >>> 1 : Nat))
      let c := c.setA ((c.A ||| (c.C_flag <<< 7) : Nat))
      .ok { c := c, Z := some (c.A == 0), Cf := some (Cf != 0), cyc := cycles.asFlat }
    | 0x10 => -- STOP reaching the plain chain
      .err .emulatorError c
    | 0x11 => -- LD DE, d16
      .ok { c := c.setDE a0, cyc := cycles.asFlat }
    | 0x12 => -- LD (DE), A
      .ok { c := c.wr c.DE c.A, cyc := cycles.asFlat }
    | 0x13 => -- INC DE
      .ok { c := c.setDE ((c.DE : Int) + 1), cyc := cycles.asFlat }
    | 0x14 => -- INC D
      let Hf := (c.D &&& 0xf) == 0b1111
      let c := c.setD ((c.D : Int) + 1)
      .ok { c := c, Z := some (c.D == 0), H := some Hf, cyc := cycles.asFlat }
    | 0x15 => -- DEC D
      let Hf := (c.D % 0xf) == 0b0000
      let c := c.setD ((c.D : Int) - 1)
      .ok { c := c, Z := some (c.D == 0), H := some Hf, cyc := cycles.asFlat }
    | 0x16 => -- LD D, d8
      .ok { c := c.setD a0, cyc := cycles.asFlat }
    | 0x17 => -- RLA
      let Cf := (c.A &&& (1 <<< 7)) >>> 7
      let c := c.setA ((c.A <<< 1 : Nat))
      let c := c.setA ((c.A ||| c.C_flag : Nat))
      .ok { c := c, Z := some (c.A == 0), Cf := some (Cf != 0), cyc := cycles.asFlat }
    | 0x18 => -- JR r8
      .ok { c := c.jmp ((c.PC : Int) + a0), cyc := cycles.asFlat }
    | 0x19 => -- ADD HL, DE
      .ok { c := c.setHL ((c.HL : Int) + c.DE), cyc := cycles.asFlat }
    | 0x1a => -- LD A, (DE)
      .ok { c := c.setA (c.rd c.DE), cyc := cycles.asFlat }
    | 0x1b => -- RR E (under the table name DEC DE)
      let Cf := c.E &&& 0x1
      let c := c.setE ((c.E >>> 1 : Nat))
      let c := c.setE ((c.E ||| (c.C_flag <<< 7) : Nat))
      .ok { c := c, Z := some (c.E == 0), Cf := some (Cf != 0), cyc := cycles.asFlat }
    | 0x1c => -- INC E
      let Hf := (c.E &&& 0x0f) == 0b1111
      let c := c.setE ((c.E : Int) + 1)
      .ok { c := c, Z := some (c.E == 0), H := some Hf, cyc := cycles.asFlat }
    | 0x1d => -- DEC E
      let Hf := (c.E % 0xf) == 0b0000
      let c := c.setE ((c.E : Int) - 1)
      .ok { c := c, Z := some (c.E == 0), H := some Hf, cyc := cycles.asFlat }
    | 0x1e => -- LD E, d8
      .ok { c := c.setE a0, cyc := cycles.asFlat }
    | 0x1f => -- RRA
      let Cf := c.A &&& 0x1
      let c := c.setA ((c.A >>> 1 : Nat))
      let c := c.setA ((c.A ||| (c.C_flag <<< 7) : Nat))
      .ok { c := c, Z := some (c.A == 0), Cf := some (Cf != 0), cyc := cycles.asFlat }
    | 0x20 => -- JR NZ, r8
      if c.Z_flag == 0 then
        .ok { c := c.jmp ((c.PC : Int) + a0), cyc := cycles.idx0 }
      else
        .ok { c := c, cyc := cycles.idx1 }
    | 0x21 => -- LD HL, d16
      .ok { c := c.setHL a0, cyc := cycles.asFlat }
    | 0x22 => -- LD (HL+), A
      let c := c.wr c.HL c.A
      .ok { c := c.setHL ((c.HL : Int) + 1), cyc := cycles.asFlat }
    | 0x23 => -- INC HL
      .ok { c := c.setHL ((c.HL : Int) + 1), cyc := cycles.asFlat }
    | 0x24 => -- INC H
      let Hf := (c.H &&& 0x0f) == 0b1111
      let c := c.setH ((c.H : Int) + 1)
      .ok { c := c, Z := some (c.H == 0), H := some Hf, cyc := cycles.asFlat }
    | 0x25 => -- DEC H
      let Hf := (c.H % 0xf) == 0b0000
      let c := c.setH ((c.H : Int) - 1)
      .ok { c := c, Z := some (c.H == 0), H := some Hf, cyc := cycles.asFlat }
    | 0x26 => -- LD H, d8
      .ok { c := c.setH a0, cyc := cycles.asFlat }
    | 0x27 => -- DAA (decimal adjust as written in the source)
      let lo := c.A % 10
      let hi := ((c.A - lo) % 100) / 10
      .ok { c := c.setA (((hi <<< 4) ||| lo : Nat)), cyc := cycles.asFlat }
    | 0x28 => -- JR Z, r8 (argument stays unsigned: table type is VOID)
      if c.Z_flag != 0 then
        .ok { c := c.jmp ((c.PC : Int) + a0), cyc := cycles.idx0 }
      else
        .ok { c := c, cyc := cycles.idx1 }
    | 0x29 => -- ADD HL, HL
      let n := c.HL + c.HL
      let c := c.setHL (n : Nat)
      .ok { c := c, Cf := some (decide (n > 0xffff)), cyc := cycles.asFlat }
    | 0x2a => -- LD A, (HL+) (uses inc16, modulo 0xffff)
      let c := c.setA (c.rd c.HL)
      .ok { c := c.setHL (inc16 c.HL : Nat), cyc := cycles.asFlat }
    | 0x2b => -- DEC HL
      .ok { c := c.setHL ((c.HL : Int) - 1), cyc := cycles.asFlat }
    | 0x2c => -- INC L
      let Hf := (c.L &&& 0x0f) == 0b1111
      let c := c.setL ((c.L : Int) + 1)
      .ok { c := c, Z := some (c.L == 0), H := some Hf, cyc := cycles.asFlat }
    | 0x2d => -- DEC L
      let Hf := (c.L % 0xf) == 0b0000
      let c := c.setL ((c.L : Int) - 1)
      .ok { c := c, Z := some (c.L == 0), H := some Hf, cyc := cycles.asFlat }
    | 0x2e => -- LD L, d8
      .ok { c := c.setL a0, cyc := cycles.asFlat }
    | 0x2f => -- CPL
      .ok { c := c.setA (((-(c.A : Int)) - 1).land 0xff), cyc := cycles.asFlat }
    | 0x30 => -- JR NC, r8
      if c.C_flag == 0 then
        .ok { c := c.jmp ((c.PC : Int) + a0), cyc := cycles.idx0 }
      else
        .ok { c := c, cyc := cycles.idx1 }
    | 0x31 => -- LD SP, d16
      .ok { c := c.setSP a0, cyc := cycles.asFlat }
    | 0x32 => -- LD (HL-), A
      let c := c.wr c.HL c.A
      .ok { c := c.setHL ((c.HL : Int) - 1), cyc := cycles.asFlat }
    | 0x33 => -- INC SP (the computed Z is discarded: table flags are None)
      let c := c.setSP ((c.SP : Int) + 1)
      .ok { c := c, Z := some (c.SP == 0), cyc := cycles.asFlat }
    | 0x34 => -- INC (HL)
      let n := c.rd c.HL
      let Hf := (n &&& 0x0f) == 0b1111
      let n := (n + 1) % 0x100
      let c := c.wr c.HL n
      .ok { c := c, Z := some (n == 0), H := some Hf, cyc := cycles.asFlat }
    | 0x35 => -- DEC (HL)
      let n := c.rd c.HL
      let Hf := (n % 0xf) == 0b0000
      let n := (((n : Int) - 1) % 0x100).toNat
      let c := c.wr c.HL n
      .ok { c := c, Z := some (n == 0), H := some Hf, cyc := cycles.asFlat }
    | 0x36 => -- LD (HL), d8
      .ok { c := c.wr c.HL a0.toNat, cyc := cycles.asFlat }
    | 0x37 => -- SCF (flag forced by the table descriptor)
      .ok { c := c, cyc := cycles.asFlat }
    | 0x38 => -- JR C, r8
      if c.C_flag != 0 then
        .ok { c := c.jmp ((c.PC : Int) + a0), cyc := cycles.idx0 }
      else
        .ok { c := c, cyc := cycles.idx1 }
    | 0x39 => -- ADD HL, SP
      .ok { c := c.setHL ((c.HL : Int) + c.SP), cyc := cycles.asFlat }
    | 0x3a => -- LD A, (HL-)
      let c := c.setA (c.rd c.HL)
      .ok { c := c.setHL ((c.HL : Int) - 1), cyc := cycles.asFlat }
    | 0x3b => -- DEC SP
      .ok { c := c.setSP ((c.SP : Int) - 1), cyc := cycles.asFlat }
    | 0x3c => -- INC A
      let Hf := (c.A &&& 0x0f) == 0b1111
      let c := c.setA ((c.A : Int) + 1)
      .ok { c := c, Z := some (c.A == 0), H := some Hf, cyc := cycles.asFlat }
    | 0x3d => -- DEC A
      let Hf := (c.A % 0xf) == 0b0000
      let c := c.setA ((c.A : Int) - 1)
      .ok { c := c, Z := some (c.A == 0), H := some Hf, cyc := cycles.asFlat }
    | 0x3e => -- LD A, d8
      .ok { c := c.setA a0, cyc := cycles.asFlat }
    | 0x3f => -- CCF (sets the carry property directly)
      .ok { c := c.setCflag (c.C_flag == 0), cyc := cycles.asFlat }
    | 0x40 => -- LD B, B
      .ok { c := c, cyc := cycles.asFlat }
    | 0x41 => -- LD B, C
      .ok { c := c.setB (c.C : Int), cyc := cycles.asFlat }
    | 0x42 => -- LD B, D
      .ok { c := c.setB (c.D : Int), cyc := cycles.asFlat }
    | 0x43 => -- LD B, E
      .ok { c := c.setB (c.E : Int), cyc := cycles.asFlat }
    | 0x44 => -- LD B, H
      .ok { c := c.setB (c.H : Int), cyc := cycles.asFlat }
    | 0x45 => -- LD B, L
      .ok { c := c.setB (c.L : Int), cyc := cycles.asFlat }
    | 0x46 => -- LD B, (HL)
      .ok { c := c.setB (c.rd c.HL : Int), cyc := cycles.asFlat }
    | 0x47 => -- LD B, A
      .ok { c := c.setB (c.A : Int), cyc := cycles.asFlat }
    | 0x48 => -- LD C, B: the source line is the comparison
              -- `self.C == self.B`, so nothing is assigned
      .ok { c := c, cyc := cycles.asFlat }
    | 0x49 => -- LD C, C
      .ok { c := c, cyc := cycles.asFlat }
    | 0x4a => -- LD C, D
      .ok { c := c.setC (c.D : Int), cyc := cycles.asFlat }
    | 0x4b => -- LD C, E
      .ok { c := c.setC (c.E : Int), cyc := cycles.asFlat }
    | 0x4c => -- LD C, H: the source line is the comparison
              -- `self.C == self.H`, so nothing is assigned
      .ok { c := c, cyc := cycles.asFlat }
    | 0x4d => -- LD C, L
      .ok { c := c.setC (c.L : Int), cyc := cycles.asFlat }
    | 0x4e => -- LD C, (HL)
      .ok { c := c.setC (c.rd c.HL : Int), cyc := cycles.asFlat }
    | 0x4f => -- LD C, A
      .ok { c := c.setC (c.A : Int), cyc := cycles.asFlat }
    | 0x50 => -- LD D, B
      .ok { c := c.setD (c.B : Int), cyc := cycles.asFlat }
    | 0x51 => -- LD D, C
      .ok { c := c.setD (c.C : Int), cyc := cycles.asFlat }
    | 0x52 => -- LD D, D
      .ok { c := c, cyc := cycles.asFlat }
    | 0x53 => -- LD D, E
      .ok { c := c.setD (c.E : Int), cyc := cycles.asFlat }
    | 0x54 => -- LD D, H
      .ok { c := c.setD (c.H : Int), cyc := cycles.asFlat }
    | 0x55 => -- LD D, L
      .ok { c := c.setD (c.L : Int), cyc := cycles.asFlat }
    | 0x56 => -- LD D, (HL)
      .ok { c := c.setD (c.rd c.HL : Int), cyc := cycles.asFlat }
    | 0x57 => -- LD D, A
      .ok { c := c.setD (c.A : Int), cyc := cycles.asFlat }
    | 0x58 => -- LD E, B
      .ok { c := c.setE (c.B : Int), cyc := cycles.asFlat }
    | 0x59 => -- LD E, C
      .ok { c := c.setE (c.C : Int), cyc := cycles.asFlat }
    | 0x5a => -- LD E, D
      .ok { c := c.setE (c.D : Int), cyc := cycles.asFlat }
    | 0x5b => -- LD E, E
      .ok { c := c, cyc := cycles.asFlat }
    | 0x5c => -- LD E, H
      .ok { c := c.setE (c.H : Int), cyc := cycles.asFlat }
    | 0x5d => -- LD E, L
      .ok { c := c.setE (c.L : Int), cyc := cycles.asFlat }
    | 0x5e => -- LD E, (HL)
      .ok { c := c.setE (c.rd c.HL : Int), cyc := cycles.asFlat }
    | 0x5f => -- LD E, A
      .ok { c := c.setE (c.A : Int), cyc := cycles.asFlat }
    | 0x60 => -- LD H, B
      .ok { c := c.setH (c.B : Int), cyc := cycles.asFlat }
    | 0x61 => -- LD H, C
      .ok { c := c.setH (c.C : Int), cyc := cycles.asFlat }
    | 0x62 => -- LD H, D
      .ok { c := c.setH (c.D : Int), cyc := cycles.asFlat }
    | 0x63 => -- LD H, E
      .ok { c := c.setH (c.E : Int), cyc := cycles.asFlat }
    | 0x64 => -- LD H, H
      .ok { c := c, cyc := cycles.asFlat }
    | 0x65 => -- LD H, L
      .ok { c := c.setH (c.L : Int), cyc := cycles.asFlat }
    | 0x66 => -- LD H, (HL)
      .ok { c := c.setH (c.rd c.HL : Int), cyc := cycles.asFlat }
    | 0x67 => -- LD H, A
      .ok { c := c.setH (c.A : Int), cyc := cycles.asFlat }
    | 0x68 => -- LD L, B
      .ok { c := c.setL (c.B : Int), cyc := cycles.asFlat }
    | 0x69 => -- LD L, C
      .ok { c := c.setL (c.C : Int), cyc := cycles.asFlat }
    | 0x6a => -- LD L, D
      .ok { c := c.setL (c.D : Int), cyc := cycles.asFlat }
    | 0x6b => -- LD L, E
      .ok { c := c.setL (c.E : Int), cyc := cycles.asFlat }
    | 0x6c => -- LD L, H
      .ok { c := c.setL (c.H : Int), cyc := cycles.asFlat }
    | 0x6d => -- LD L, L
      .ok { c := c, cyc := cycles.asFlat }
    | 0x6e => -- LD L, (HL)
      .ok { c := c.setL (c.rd c.HL : Int), cyc := cycles.asFlat }
    | 0x6f => -- LD L, A
      .ok { c := c.setL (c.A : Int), cyc := cycles.asFlat }
    | 0x70 => -- LD (HL), B
      .ok { c := c.wr c.HL c.B, cyc := cycles.asFlat }
    | 0x71 => -- LD (HL), C
      .ok { c := c.wr c.HL c.C, cyc := cycles.asFlat }
    | 0x72 => -- LD (HL), D
      .ok { c := c.wr c.HL c.D, cyc := cycles.asFlat }
    | 0x73 => -- LD (HL), E
      .ok { c := c.wr c.HL c.E, cyc := cycles.asFlat }
    | 0x74 => -- LD (HL), H
      .ok { c := c.wr c.HL c.H, cyc := cycles.asFlat }
    | 0x75 => -- LD (HL), L
      .ok { c := c.wr c.HL c.L, cyc := cycles.asFlat }
    | 0x76 => -- HALT
      .err .notImplemented c
    | 0x77 => -- LD (HL), A
      .ok { c := c.wr c.HL c.A, cyc := cycles.asFlat }
    | 0x78 => -- LD A, B
      .ok { c := c.setA (c.B : Int), cyc := cycles.asFlat }
    | 0x79 => -- LD A, C
      .ok { c := c.setA (c.C : Int), cyc := cycles.asFlat }
    | 0x7a => -- source assigns `self.A = self.B` here (comment and table
              -- both say LD A, B; opcode 0x7a is LD A, D)
      .ok { c := c.setA (c.B : Int), cyc := cycles.asFlat }
    | 0x7b => -- LD A, E
      .ok { c := c.setA (c.E : Int), cyc := cycles.asFlat }
    | 0x7c => -- LD A, H
      .ok { c := c.setA (c.H : Int), cyc := cycles.asFlat }
    | 0x7d => -- LD A, L
      .ok { c := c.setA (c.L : Int), cyc := cycles.asFlat }
    | 0x7e => -- LD A, (HL)
      .ok { c := c.setA (c.rd c.HL : Int), cyc := cycles.asFlat }
    | 0x7f => -- LD A, A
      .ok { c := c, cyc := cycles.asFlat }
    | 0x80 => -- ADD A, B
      let c := c.setA ((c.A : Int) + c.B)
      .ok { c := c, Z := some (c.A == 0), cyc := cycles.asFlat }
    | 0x81 => -- ADD A, C
      let c := c.setA ((c.A : Int) + c.C)
      .ok { c := c, Z := some (c.A == 0), cyc := cycles.asFlat }
    | 0x82 => -- ADD A, D
      let c := c.setA ((c.A : Int) + c.D)
      .ok { c := c, Z := some (c.A == 0), cyc := cycles.asFlat }
    | 0x83 => -- ADD A, E
      let c := c.setA ((c.A : Int) + c.E)
      .ok { c := c, Z := some (c.A == 0), cyc := cycles.asFlat }
    | 0x84 => -- ADD A, H
      let c := c.setA ((c.A : Int) + c.H)
      .ok { c := c, Z := some (c.A == 0), cyc := cycles.asFlat }
    | 0x85 => -- ADD A, L
      let c := c.setA ((c.A : Int) + c.L)
      .ok { c := c, Z := some (c.A == 0), cyc := cycles.asFlat }
    | 0x86 => -- ADD A, (HL)
      let c := c.setA ((c.A : Int) + c.rd c.HL)
      .ok { c := c, Z := some (c.A == 0), cyc := cycles.asFlat }
    | 0x87 => -- ADD A, A
      let c := c.setA ((c.A : Int) + c.A)
      .ok { c := c, Z := some (c.A == 0), cyc := cycles.asFlat }
    | 0x88 => -- ADC A, B
      let n : Int := (c.B : Int) + c.C_flag
      let c := c.setA ((c.A : Int) + n)
      .ok { c := c, Z := some (c.A == 0), cyc := cycles.asFlat }
    | 0x89 => -- ADC A, C
      let n : Int := (c.C : Int) + c.C_flag
      let c := c.setA ((c.A : Int) + n)
      .ok { c := c, Z := some (c.A == 0), cyc := cycles.asFlat }
    | 0x8a => -- ADC A, D
      let n : Int := (c.D : Int) + c.C_flag
      let c := c.setA ((c.A : Int) + n)
      .ok { c := c, Z := some (c.A == 0), cyc := cycles.asFlat }
    | 0x8b => -- ADC A, E: the source adds `self.D`
      let n : Int := (c.D : Int) + c.C_flag
      let c := c.setA ((c.A : Int) + n)
      .ok { c := c, Z := some (c.A == 0), cyc := cycles.asFlat }
    | 0x8c => -- ADC A, H
      let n : Int := (c.H : Int) + c.C_flag
      let c := c.setA ((c.A : Int) + n)
      .ok { c := c, Z := some (c.A == 0), cyc := cycles.asFlat }
    | 0x8d => -- ADC A, L: the source adds `self.H`
      let n : Int := (c.H : Int) + c.C_flag
      let c := c.setA ((c.A : Int) + n)
      .ok { c := c, Z := some (c.A == 0), cyc := cycles.asFlat }
    | 0x8e => -- ADC A, (HL)
      let n : Int := (c.rd c.HL : Int) + c.C_flag
      let c := c.setA ((c.A : Int) + n)
      .ok { c := c, Z := some (c.A == 0), cyc := cycles.asFlat }
    | 0x8f => -- ADC A, A: the source adds `self.memory[self.HL]`
      let n : Int := (c.rd c.HL : Int) + c.C_flag
      let c := c.setA ((c.A : Int) + n)
      .ok { c := c, Z := some (c.A == 0), cyc := cycles.asFlat }
    | 0x90 => -- SUB B
      let c := c.setA (((c.A : Int) - c.B) % 0x100)
      .ok { c := c, Z := some (c.A == 0), cyc := cycles.asFlat }
    | 0x91 => -- SUB C
      let c := c.setA ((c.A : Int) - c.C)
      .ok { c := c, Z := some (c.A == 0), cyc := cycles.asFlat }
    | 0x92 => -- SUB D
      let c := c.setA ((c.A : Int) - c.D)
      .ok { c := c, Z := some (c.A == 0), cyc := cycles.asFlat }
    | 0x93 => -- SUB E
      let c := c.setA ((c.A : Int) - c.E)
      .ok { c := c, Z := some (c.A == 0), cyc := cycles.asFlat }
    | 0x94 => -- SUB H
      let c := c.setA ((c.A : Int) - c.H)
      .ok { c := c, Z := some (c.A == 0), cyc := cycles.asFlat }
    | 0x95 => -- SUB L
      let c := c.setA ((c.A : Int) - c.L)
      .ok { c := c, Z := some (c.A == 0), cyc := cycles.asFlat }
    | 0x96 => -- SUB (HL)
      let c := c.setA ((c.A : Int) - c.rd c.HL)
      .ok { c := c, Z := some (c.A == 0), cyc := cycles.asFlat }
    | 0x97 => -- SUB A (two redundant assignments, as in the source)
      let c := c.setA ((c.A : Int) - c.A)
      let c := c.setA (((c.A : Int) - c.A) % 0x100)
      .ok { c := c, Z := some (c.A == 0), cyc := cycles.asFlat }
    | 0x98 => -- SBC A, B
      let n : Int := (c.B : Int) + c.C_flag
      let c := c.setA ((c.A : Int) - n)
      .ok { c := c, Z := some (c.A == 0), cyc := cycles.asFlat }
    | 0x99 => -- SBC A, C
      let n : Int := (c.C : Int) + c.C_flag
      let c := c.setA ((c.A : Int) - n)
      .ok { c := c, Z := some (c.A == 0), cyc := cycles.asFlat }
    | 0x9a => -- SBC A, D
      let n : Int := (c.D : Int) + c.C_flag
      let c := c.setA ((c.A : Int) - n)
      .ok { c := c, Z := some (c.A == 0), cyc := cycles.asFlat }
    | 0x9b => -- SBC A, E
      let n : Int := (c.E : Int) + c.C_flag
      let c := c.setA ((c.A : Int) - n)
      .ok { c := c, Z := some (c.A == 0), cyc := cycles.asFlat }
    | 0x9c => -- SBC A, H
      let n : Int := (c.H : Int) + c.C_flag
      let c := c.setA ((c.A : Int) - n)
      .ok { c := c, Z := some (c.A == 0), cyc := cycles.asFlat }
    | 0x9d => -- SBC A, L
      let n : Int := (c.L : Int) + c.C_flag
      let c := c.setA ((c.A : Int) - n)
      .ok { c := c, Z := some (c.A == 0), cyc := cycles.asFlat }
    | 0x9e => -- SBC A, (HL)
      let n : Int := (c.rd c.HL : Int) + c.C_flag
      let c := c.setA ((c.A : Int) - n)
      .ok { c := c, Z := some (c.A == 0), cyc := cycles.asFlat }
    | 0x9f => -- SBC A, A
      let n : Int := (c.A : Int) + c.C_flag
      let c := c.setA ((c.A : Int) - n)
      .ok { c := c, Z := some (c.A == 0), cyc := cycles.asFlat }
    | 0xa0 => -- AND B
      let c := c.setA ((c.A &&& c.B : Nat))
      .ok { c := c, Z := some (c.A == 0), cyc := cycles.asFlat }
    | 0xa1 => -- AND C
      let c := c.setA ((c.A &&& c.C : Nat))
      .ok { c := c, Z := some (c.A == 0), cyc := cycles.asFlat }
    | 0xa2 => -- AND D
      let c := c.setA ((c.A &&& c.D : Nat))
      .ok { c := c, Z := some (c.A == 0), cyc := cycles.asFlat }
    | 0xa3 => -- AND E
      let c := c.setA ((c.A &&& c.E : Nat))
      .ok { c := c, Z := some (c.A == 0), cyc := cycles.asFlat }
    | 0xa4 => -- AND H
      let c := c.setA ((c.A &&& c.H : Nat))
      .ok { c := c, Z := some (c.A == 0), cyc := cycles.asFlat }
    | 0xa5 => -- AND L
      let c := c.setA ((c.A &&& c.L : Nat))
      .ok { c := c, Z := some (c.A == 0), cyc := cycles.asFlat }
    | 0xa6 => -- AND (HL)
      let c := c.setA ((c.A &&& c.rd c.HL : Nat))
      .ok { c := c, Z := some (c.A == 0), cyc := cycles.asFlat }
    | 0xa7 => -- AND A (no assignment)
      .ok { c := c, Z := some (c.A == 0), cyc := cycles.asFlat }
    | 0xa8 => -- XOR B
      let c := c.setA ((c.A ^^^ c.B : Nat))
      .ok { c := c, Z := some (c.A == 0), cyc := cycles.asFlat }
    | 0xa9 => -- XOR C
      let c := c.setA ((c.A ^^^ c.C : Nat))
      .ok { c := c, Z := some (c.A == 0), cyc := cycles.asFlat }
    | 0xaa => -- XOR D
      let c := c.setA ((c.A ^^^ c.D : Nat))
      .ok { c := c, Z := some (c.A == 0), cyc := cycles.asFlat }
    | 0xab => -- XOR E
      let c := c.setA ((c.A ^^^ c.E : Nat))
      .ok { c := c, Z := some (c.A == 0), cyc := cycles.asFlat }
    | 0xac => -- XOR H
      let c := c.setA ((c.A ^^^ c.H : Nat))
      .ok { c := c, Z := some (c.A == 0), cyc := cycles.asFlat }
    | 0xad => -- XOR L
      let c := c.setA ((c.A ^^^ c.L : Nat))
      .ok { c := c, Z := some (c.A == 0), cyc := cycles.asFlat }
    | 0xae => -- XOR (HL)
      let c := c.setA ((c.A ^^^ c.rd c.HL : Nat))
      .ok { c := c, Z := some (c.A == 0), cyc := cycles.asFlat }
    | 0xaf => -- XOR A
      let c := c.setA (0 : Int)
      .ok { c := c, Z := some true, cyc := cycles.asFlat }
    | 0xb0 => -- OR B
      let c := c.setA ((c.A ||| c.B : Nat))
      .ok { c := c, Z := some (c.A == 0), cyc := cycles.asFlat }
    | 0xb1 => -- OR C
      let c := c.setA ((c.A ||| c.C : Nat))
      .ok { c := c, Z := some (c.A == 0), cyc := cycles.asFlat }
    | 0xb2 => -- OR D
      let c := c.setA ((c.A ||| c.D : Nat))
      .ok { c := c, Z := some (c.A == 0), cyc := cycles.asFlat }
    | 0xb3 => -- OR E
      let c := c.setA ((c.A ||| c.E : Nat))
      .ok { c := c, Z := some (c.A == 0), cyc := cycles.asFlat }
    | 0xb4 => -- OR H
      let c := c.setA ((c.A ||| c.H : Nat))
      .ok { c := c, Z := some (c.A == 0), cyc := cycles.asFlat }
    | 0xb5 => -- OR L
      let c := c.setA ((c.A ||| c.L : Nat))
      .ok { c := c, Z := some (c.A == 0), cyc := cycles.asFlat }
    | 0xb6 => -- OR (HL)
      let c := c.setA ((c.A ||| c.rd c.HL : Nat))
      .ok { c := c, Z := some (c.A == 0), cyc := cycles.asFlat }
    | 0xb7 => -- OR A
      let c := c.setA ((c.A ||| c.A : Nat))
      .ok { c := c, Z := some (c.A == 0), cyc := cycles.asFlat }
    | 0xb8 => -- CP B (carry compares A against the wrapped result)
      let result := (((c.A : Int) - c.B) % 0x100).toNat
      .ok { c := c, Z := some (result == 0), Cf := some (decide (c.A < result)), cyc := cycles.asFlat }
    | 0xb9 => -- CP C
      let result := (((c.A : Int) - c.C) % 0x100).toNat
      .ok { c := c, Z := some (result == 0), Cf := some (decide (c.A < result)), cyc := cycles.asFlat }
    | 0xba => -- CP D
      let result := (((c.A : Int) - c.D) % 0x100).toNat
      .ok { c := c, Z := some (result == 0), Cf := some (decide (c.A < result)), cyc := cycles.asFlat }
    | 0xbb => -- CP E
      let result := (((c.A : Int) - c.E) % 0x100).toNat
      .ok { c := c, Z := some (result == 0), Cf := some (decide (c.A < result)), cyc := cycles.asFlat }
    | 0xbc => -- CP H
      let result := (((c.A : Int) - c.H) % 0x100).toNat
      .ok { c := c, Z := some (result == 0), Cf := some (decide (c.A < result)), cyc := cycles.asFlat }
    | 0xbd => -- CP L
      let result := (((c.A : Int) - c.L) % 0x100).toNat
      .ok { c := c, Z := some (result == 0), Cf := some (decide (c.A < result)), cyc := cycles.asFlat }
    | 0xbe => -- CP (HL)
      let result := (((c.A : Int) - c.rd c.HL) % 0x100).toNat
      .ok { c := c, Z := some (result == 0), Cf := some (decide (c.A < result)), cyc := cycles.asFlat }
    | 0xbf => -- CP A
      let result := (((c.A : Int) - c.A) % 0x100).toNat
      .ok { c := c, Z := some (result == 0), Cf := some (decide (c.A < result)), cyc := cycles.asFlat }
    | 0xc0 => -- RET NZ (the source picks cycles[1] on the taken path)
      if c.Z_flag == 0 then
        .ok { c := c.ret, cyc := cycles.idx1 }
      else
        .ok { c := c, cyc := cycles.idx0 }
    | 0xc1 => -- POP BC
      let (c, v) := c.pop
      .ok { c := c.setBC (v : Int), cyc := cycles.asFlat }
    | 0xc2 => -- JP NZ, a16
      if c.Z_flag == 0 then
        .ok { c := c.jmp a0, cyc := cycles.idx0 }
      else
        .ok { c := c, cyc := cycles.idx1 }
    | 0xc3 => -- JP a16
      .ok { c := c.jmp a0, cyc := cycles.asFlat }
    | 0xc4 => -- CALL NZ, a16
      if c.Z_flag == 0 then
        .ok { c := c.call a0, cyc := cycles.idx0 }
      else
        .ok { c := c, cyc := cycles.idx1 }
    | 0xc5 => -- PUSH BC
      .ok { c := c.push c.BC, cyc := cycles.asFlat }
    | 0xc6 => -- ADD A, d8
      let c := c.setA ((c.A : Int) + a0)
      .ok { c := c, Z := some (c.A == 0), cyc := cycles.asFlat }
    | 0xc7 => -- RST 00H
      .ok { c := c.rst 0x00, cyc := cycles.asFlat }
    | 0xc8 => -- RET Z
      if c.Z_flag != 0 then
        .ok { c := c.ret, cyc := cycles.idx0 }
      else
        .ok { c := c, cyc := cycles.idx1 }
    | 0xc9 => -- RET
      .ok { c := c.ret, cyc := cycles.asFlat }
    | 0xca => -- JP Z, a16
      if c.Z_flag != 0 then
        .ok { c := c.jmp a0, cyc := cycles.idx0 }
      else
        .ok { c := c, cyc := cycles.idx1 }
    | 0xcb => -- a naked PREFIX CB reaching execute
      .err .invalidOpcodeError c
    | 0xcc => -- CALL Z, a16
      if c.Z_flag != 0 then
        .ok { c := c.call a0, cyc := cycles.idx0 }
      else
        .ok { c := c, cyc := cycles.idx1 }
    | 0xcd => -- CALL a16
      .ok { c := c.call a0, cyc := cycles.asFlat }
    | 0xce => -- ADC A, d8
      let n : Int := a0 + c.C_flag
      let c := c.setA ((c.A : Int) + n)
      .ok { c := c, Z := some (c.A == 0), cyc := cycles.asFlat }
    | 0xcf => -- RST 08H
      .ok { c := c.rst 0x08, cyc := cycles.asFlat }
    | 0xd0 => -- RET NC
      if c.C_flag == 0 then
        .ok { c := c.ret, cyc := cycles.idx0 }
      else
        .ok { c := c, cyc := cycles.idx1 }
    | 0xd1 => -- POP DE
      let (c, v) := c.pop
      .ok { c := c.setDE (v : Int), cyc := cycles.asFlat }
    | 0xd2 => -- JP NC, a16
      if c.C_flag == 0 then
        .ok { c := c.jmp a0, cyc := cycles.idx0 }
      else
        .ok { c := c, cyc := cycles.idx1 }
    | 0xd3 => .err .invalidOpcodeError c
    | 0xd4 => -- CALL NC, a16
      if c.C_flag == 0 then
        .ok { c := c.call a0, cyc := cycles.idx0 }
      else
        .ok { c := c, cyc := cycles.idx1 }
    | 0xd5 => -- PUSH DE
      .ok { c := c.push c.DE, cyc := cycles.asFlat }
    | 0xd6 => -- SUB d8
      let c := c.setA ((c.A : Int) - a0)
      .ok { c := c, Z := some (c.A == 0), cyc := cycles.asFlat }
    | 0xd7 => -- RST 10H
      .ok { c := c.rst 0x10, cyc := cycles.asFlat }
    | 0xd8 => -- RET C
      if c.C_flag != 0 then
        .ok { c := c.ret, cyc := cycles.idx0 }
      else
        .ok { c := c, cyc := cycles.idx1 }
    | 0xd9 => -- RETI
      let c := c.ret
      .ok { c := { c with IME := true }, cyc := cycles.asFlat }
    | 0xda => -- JP C, a16
      if c.C_flag != 0 then
        .ok { c := c.jmp a0, cyc := cycles.idx0 }
      else
        .ok { c := c, cyc := cycles.idx1 }
    | 0xdb => .err .invalidOpcodeError c
    | 0xdc => -- CALL C (the source calls through register C)
      if c.C_flag != 0 then
        .ok { c := c.call (c.C : Int), cyc := cycles.idx0 }
      else
        .ok { c := c, cyc := cycles.idx1 }
    | 0xdd => .err .invalidOpcodeError c
    | 0xde => -- SBC A, d8
      let n : Int := a0 + c.C_flag
      let c := c.setA ((c.A : Int) - n)
      .ok { c := c, Z := some (c.A == 0), cyc := cycles.asFlat }
    | 0xdf => -- RST 18H
      .ok { c := c.rst 0x18, cyc := cycles.asFlat }
    | 0xe0 => -- LDH ($ff00+a8), A
      .ok { c := c.wr a0.toNat c.A, cyc := cycles.asFlat }
    | 0xe1 => -- POP HL
      let (c, v) := c.pop
      .ok { c := c.setHL (v : Int), cyc := cycles.asFlat }
    | 0xe2 => -- LD ($ff00+C), A
      .ok { c := c.wr ((0xff00 + c.C) % 0x10000) c.A, cyc := cycles.asFlat }
    | 0xe3 => .err .invalidOpcodeError c
    | 0xe4 => .err .invalidOpcodeError c
    | 0xe5 => -- PUSH HL
      .ok { c := c.push c.HL, cyc := cycles.asFlat }
    | 0xe6 => -- AND d8
      let c := c.setA ((c.A : Int).land a0)
      .ok { c := c, Z := some (c.A == 0), cyc := cycles.asFlat }
    | 0xe7 => -- RST 20H
      .ok { c := c.rst 0x20, cyc := cycles.asFlat }
    | 0xe8 => -- ADD SP, r8
      .ok { c := c.setSP ((c.SP : Int) + a0), cyc := cycles.asFlat }
    | 0xe9 => -- JP (HL): the source jumps to the byte read from memory
              -- at HL, `self.jmp(self.memory[self.HL])`
      .ok { c := c.jmp (c.rd c.HL : Int), cyc := cycles.asFlat }
    | 0xea => -- LD (a16), A
      .ok { c := c.wr a0.toNat c.A, cyc := cycles.asFlat }
    | 0xeb => .err .invalidOpcodeError c
    | 0xec => .err .invalidOpcodeError c
    | 0xed => .err .invalidOpcodeError c
    | 0xee => -- XOR d8 (the table types the argument r8, so it may be
              -- negative; Python xor on ints is two-complement)
      let c := c.setA (Int.xor (c.A : Int) a0)
      .ok { c := c, Z := some (c.A == 0), cyc := cycles.asFlat }
    | 0xef => -- RST 28H
      .ok { c := c.rst 0x28, cyc := cycles.asFlat }
    | 0xf0 => -- LDH A, (a8)
      .ok { c := c.setA (c.rd a0.toNat : Int), cyc := cycles.asFlat }
    | 0xf1 => -- POP AF
      let (c, v) := c.pop
      .ok { c := c.setAF (v : Int), cyc := cycles.asFlat }
    | 0xf2 => -- LD A, (C): the source reads memory at address C
      .ok { c := c.setA (c.rd c.C : Int), cyc := cycles.asFlat }
    | 0xf3 => -- DI
      .ok { c := { c with IME := false }, cyc := cycles.asFlat }
    | 0xf4 => .err .invalidOpcodeError c
    | 0xf5 => -- PUSH AF
      .ok { c := c.push c.AF, cyc := cycles.asFlat }
    | 0xf6 => -- OR d8
      let c := c.setA ((c.A : Int).lor a0)
      .ok { c := c, Z := some (c.A == 0), cyc := cycles.asFlat }
    | 0xf7 => -- RST 30H
      .ok { c := c.rst 0x30, cyc := cycles.asFlat }
    | 0xf8 => -- LD HL, SP+r8
      .ok { c := c.setHL ((c.SP : Int) + a0), cyc := cycles.asFlat }
    | 0xf9 => -- LD SP, HL
      .ok { c := c.setSP (c.HL : Int), cyc := cycles.asFlat }
    | 0xfa => -- LD A, (a16)
      .ok { c := c.setA (c.rd a0.toNat : Int), cyc := cycles.asFlat }
    | 0xfb => -- EI
      .ok { c := { c with IME := true }, cyc := cycles.asFlat }
    | 0xfc => .err .invalidOpcodeError c
    | 0xfd => .err .invalidOpcodeError c
    | 0xfe => -- CP d8 (H never computed; the source carries a TODO there)
      let result := (((c.A : Int) - a0) % 0x100).toNat
      .ok { c := c, Z := some (result == 0), Cf := some (decide ((c.A : Int) < a0)), cyc := cycles.asFlat }
    | 0xff => -- RST 38H
      .ok { c := c.rst 0x38, cyc := cycles.asFlat }
    | _ => .err .emulatorError c

set_option linter.unusedVariables false in
/-- Embeds `CPU.execute`: run the instruction body, then apply the flag
descriptor and account the resolved cycles into `cycles` and
`total_cycles`.  The `length` argument is used by the source only inside
error message strings. -/
def CPU.execute (c : CPU) (opcode length : Nat) (cycles : Cycles)
    (flags : Option (List FlagEff)) (raw : List Nat) (arg : Option Int) : StepResult :=
  match executeBody c opcode cycles raw arg with
  | .err e c => .err e c
  | .ok eff =>
    let c := applyFlags eff.c flags eff.Z eff.N eff.H eff.Cf
    let c := { c with cycles := c.cycles + eff.cyc,
                      total_cycles := c.total_cycles + eff.cyc }
    .ok c

/-- Embeds `util.POST_BOOT_STATE["registers"]` (name, value). -/
def post_boot_registers : List (String × Nat) :=
  [("A", 0x01), ("B", 0x00), ("C", 0x13), ("D", 0x00), ("E", 0xd8),
   ("F", 0xb0), ("H", 0x01), ("L", 0xfd), ("SP", 0xfffe), ("PC", 0x0100)]

/-- Embeds `util.POST_BOOT_STATE["memory"]` (address, value). -/
def post_boot_memory : List (Nat × Nat) :=
  [(0xff05, 0x00), (0xff06, 0x00), (0xff07, 0x00), (0xff10, 0x80),
   (0xff11, 0xbf), (0xff12, 0xf3), (0xff14, 0xbf), (0xff16, 0x3f),
   (0xff17, 0x00), (0xff19, 0xbf), (0xff1a, 0x7f), (0xff1b, 0xff),
   (0xff1c, 0x9f), (0xff1e, 0xbf), (0xff20, 0xff), (0xff21, 0x00),
   (0xff22, 0x00), (0xff23, 0xbf), (0xff24, 0x77), (0xff25, 0xf3),
   (0xff26, 0xf1), (0xff40, 0x91), (0xff42, 0x00), (0xff43, 0x00),
   (0xff45, 0x00), (0xff47, 0xfc), (0xff48, 0xff), (0xff49, 0xff),
   (0xff4a, 0x00), (0xff4b, 0x00), (0xffff, 0x00)]

/-- Embeds `util.check_boot`.  The nested helper `assert_register`
assigns `ok = False` to a variable that is local to the helper (Python
scoping: an assignment inside a nested function creates a fresh local
unless declared otherwise), so the ten register comparisons it performs
(A, B, C, D, E, F, H, L, SP, PC against `post_boot_registers`) never
influence the value `check_boot` returns; only the memory loop, which
assigns `ok` in the scope of `check_boot` itself, can turn the result
`False`.  The embedding therefore returns exactly the conjunction of the
memory comparisons. -/
def check_boot (cpu : CPU) : Bool :=
  post_boot_memory.all (fun p => busRead cpu.memory p.1 == p.2)

/-- Embeds `CPU.step` (cpu.py lines 189-208): remember whether the boot
ROM was active, fetch, decode, execute; advance the display once when the
cycle accumulator reaches the scanline budget (reducing the accumulator
first, as the source does); and when this step turned the boot ROM off,
run `check_boot` and raise `EmulatorError` on a `False` result.  The
`except` clause of the source only logs and re-raises. -/
def CPU.step (c : CPU) : StepResult :=
  let boot_rom := c.memory.boot_rom_active
  let opcode := c.fetch
  match c.decode opcode with
  | .err e c => .err e c
  | .ok c d =>
    match c.execute d.opcode d.bytelen d.cycles d.flags d.raw d.arg with
    | .err e c => .err e c
    | .ok c =>
      let c := if c.cycles ≥ c.screen_cycles then
          { c with cycles := c.cycles % c.screen_cycles,
                   memory := { c.memory with display := c.memory.display.step } }
        else c
      if boot_rom && !c.memory.boot_rom_active then
        if !check_boot c then .err .emulatorError c else .ok c
      else .ok c

/-- Embeds `Display.__init__` restricted to the tracked fields: the
randomized VRAM contents are a parameter; LY, SCY, SCX, BGPAL and the
stored LCDC byte all start at zero. -/
def mkDisplay (ram : ByteFn) : Display :=
  { ram := ram, LY := 0, SCY := 0, SCX := 0, BGPAL := 0, LCDCONT := 0 }

/-- Embeds `CPU.__init__`: zeroed 12-byte register array, IME off, zero
cycle counters.  `screen_cycles = int(self.MHz * 1e6 / fps / scanlines)`;
with the constants 4.194304 MHz, 59.7 fps and 154 scanlines from
display.py the float expression evaluates to 456. -/
def mkCPU (memory : Bus) : CPU :=
  { memory := memory
    registers := fun _ => 0
    IME := false
    cycles := 0
    total_cycles := 0
    screen_cycles := 456 }

/-- Addresses that behave as ordinary writable RAM on the bus: inside
0x8000..0xFFFF and distinct from the five LCD read intercepts and from
the boot-ROM latch 0xFF50. -/
def plainRAM (a : Nat) : Prop :=
  0x8000 ≤ a ∧ a ≤ 0xffff ∧ a ≠ 0xff40 ∧ a ≠ 0xff42 ∧ a ≠ 0xff43 ∧
    a ≠ 0xff44 ∧ a ≠ 0xff47 ∧ a ≠ 0xff50

theorem and_shiftRight_distrib (x y n : Nat) :
    (x &&& y) >>> n = (x >>> n) &&& (y >>> n) := by
  apply Nat.eq_of_testBit_eq
  intro i
  simp [Nat.testBit_shiftRight, Nat.testBit_and]

theorem and_0xff_eq_mod (x : Nat) : x &&& 0xff = x % 0x100 := by
  have h := Nat.and_pow_two_sub_one_eq_mod x 8
  norm_num at h
  exact h

theorem recomb_shift (w : Nat) :
    (w >>> 8) <<< 8 ||| (w &&& 0xff) = w := by
  rw [and_0xff_eq_mod, Nat.shiftRight_eq_div_pow, Nat.shiftLeft_eq,
    Nat.mul_comm (w / 2 ^ 8) (2 ^ 8),
    ← Nat.mul_add_lt_is_or (b := w % 0x100) (by omega) (w / 2 ^ 8)]
  have h3 := Nat.div_add_mod w 256
  have h4 : (2 : Nat) ^ 8 = 256 := by norm_num
  omega

theorem hi_byte_eq (w : Nat) : (w &&& 0xff00) >>> 8 = (w >>> 8) &&& 0xff := by
  have h : (0xff00 : Nat) >>> 8 = 0xff := by decide
  rw [and_shiftRight_distrib, h]

theorem u16_roundtrip (w : Nat) (h : w ≤ 0xffff) :
    u8_to_u16 (u16_to_u8 w).1 (u16_to_u8 w).2 = w := by
  show ((w &&& 0xff00) >>> 8) <<< 8 ||| (w &&& 0xff) = w
  rw [hi_byte_eq]
  have hlt : w >>> 8 < 0x100 := by
    rw [Nat.shiftRight_eq_div_pow]
    omega
  rw [show (0xff : Nat) = 2 ^ 8 - 1 from by norm_num,
    Nat.and_pow_two_sub_one_of_lt_two_pow (by simpa using hlt)]
  rw [show ((2 : Nat) ^ 8 - 1) = 0xff from by norm_num]
  exact recomb_shift w

theorem updFn_self (f : ByteFn) (i v : Nat) : updFn f i v i = v := by
  unfold updFn
  rw [if_pos rfl]

theorem updFn_other (f : ByteFn) (i v j : Nat) (h : j ≠ i) : updFn f i v j = f j := by
  unfold updFn
  rw [if_neg h]

theorem memSet_self (f : ByteFn) (i v : Nat) : memSet f i v i = v % 0x100 :=
  updFn_self f i (v % 0x100)

theorem memSet_other (f : ByteFn) (i v j : Nat) (h : j ≠ i) : memSet f i v j = f j :=
  updFn_other f i (v % 0x100) j h

theorem upd_display_ram_eq (s : Bus) (f : ByteFn) :
    ({ s with display.ram := f } : Bus).display.ram = f := rfl

theorem upd_display_ewram_eq (s : Bus) (f : ByteFn) :
    ({ s with display.ram := f } : Bus).ewram = s.ewram := rfl

theorem upd_display_iwram_eq (s : Bus) (f : ByteFn) :
    ({ s with display.ram := f } : Bus).internal_work_ram = s.internal_work_ram := rfl

theorem upd_ewram_display_eq (s : Bus) (f : ByteFn) :
    ({ s with ewram := f } : Bus).display.ram = s.display.ram := rfl

theorem upd_ewram_ewram_eq (s : Bus) (f : ByteFn) :
    ({ s with ewram := f } : Bus).ewram = f := rfl

theorem upd_ewram_iwram_eq (s : Bus) (f : ByteFn) :
    ({ s with ewram := f } : Bus).internal_work_ram = s.internal_work_ram := rfl

theorem upd_iwram_display_eq (s : Bus) (f : ByteFn) :
    ({ s with internal_work_ram := f } : Bus).display.ram = s.display.ram := rfl

theorem upd_iwram_ewram_eq (s : Bus) (f : ByteFn) :
    ({ s with internal_work_ram := f } : Bus).ewram = s.ewram := rfl

theorem upd_iwram_iwram_eq (s : Bus) (f : ByteFn) :
    ({ s with internal_work_ram := f } : Bus).internal_work_ram = f := rfl

theorem memory_map_ram (s : Bus) (a : Nat) (h8 : 0x8000 ≤ a) (hf : a ≤ 0xffff) :
    memory_map s a = if a < 0xa000 then some (.displayRAM, 0x8000)
      else if a < 0xc000 then some (.expandedWRAM, 0xa000)
      else some (.internalWRAM, 0xc000) := by
  unfold memory_map
  rw [if_neg (by omega : ¬ (a < 0x0100 ∧ s.boot_rom_active = true)),
      if_neg (by omega : ¬ a < 0x4000), if_neg (by omega : ¬ a < 0x8000)]
  by_cases h1 : a < 0xa000
  · simp [h1]
  · by_cases h2 : a < 0xc000 <;> simp [h1, h2, (by omega : a ≤ 0xffff)]

theorem busRead_ram (s : Bus) (a : Nat) (h : plainRAM a) :
    busRead s a = (if a < 0xa000 then s.display.ram (a - 0x8000)
      else if a < 0xc000 then s.ewram (a - 0xa000)
      else s.internal_work_ram (a - 0xc000)) := by
  obtain ⟨h1, h2, h3, h4, h5, h6, h7, h8⟩ := h
  unfold busRead
  rw [if_neg h3, if_neg h4, if_neg h5, if_neg h6, if_neg h7,
      memory_map_ram s a h1 h2]
  by_cases ha : a < 0xa000
  · simp [ha, regionGet]
  · by_cases hb : a < 0xc000 <;> simp [ha, hb, regionGet]

theorem busWrite_display (s : Bus) (a v : Nat) (h8 : 0x8000 ≤ a) (ha : a < 0xa000) :
    busWrite s a v = { s with display.ram := memSet s.display.ram (a - 0x8000) v } := by
  unfold busWrite
  rw [if_neg (by omega : ¬ a = 0xff40), if_neg (by omega : ¬ a = 0xff42),
      if_neg (by omega : ¬ a = 0xff43), if_neg (by omega : ¬ a = 0xff44),
      if_neg (by omega : ¬ a = 0xff47),
      if_neg (by omega : ¬ (a = 0xff50 ∧ s.boot_rom_active = true)),
      if_neg (by omega : ¬ a < 0x8000),
      memory_map_ram s a h8 (by omega)]
  rw [if_pos ha]
  simp only [regionSet]
  rw [if_neg (by omega : ¬ (0xc000 ≤ a ∧ a ≤ 0xde00)),
      if_neg (by omega : ¬ (0xe000 ≤ a ∧ a ≤ 0xfe00))]

theorem busWrite_ewram (s : Bus) (a v : Nat) (h8 : 0xa000 ≤ a) (ha : a < 0xc000) :
    busWrite s a v = { s with ewram := memSet s.ewram (a - 0xa000) v } := by
  unfold busWrite
  rw [if_neg (by omega : ¬ a = 0xff40), if_neg (by omega : ¬ a = 0xff42),
      if_neg (by omega : ¬ a = 0xff43), if_neg (by omega : ¬ a = 0xff44),
      if_neg (by omega : ¬ a = 0xff47),
      if_neg (by omega : ¬ (a = 0xff50 ∧ s.boot_rom_active = true)),
      if_neg (by omega : ¬ a < 0x8000),
      memory_map_ram s a (by omega) (by omega)]
  rw [if_neg (by omega : ¬ a < 0xa000), if_pos ha]
  simp only [regionSet]
  rw [if_neg (by omega : ¬ (0xc000 ≤ a ∧ a ≤ 0xde00)),
      if_neg (by omega : ¬ (0xe000 ≤ a ∧ a ≤ 0xfe00))]

theorem busWrite_iwram_mid (s : Bus) (a v : Nat) (hc : 0xc000 ≤ a) (hm : a ≤ 0xde00) :
    busWrite s a v = { s with internal_work_ram := (memSet (memSet s.internal_work_ram (a - 0xc000) v) (a + 0x1000 - 0xc000) (v % 0x100)) } := by
  unfold busWrite
  rw [if_neg (by omega : ¬ a = 0xff40), if_neg (by omega : ¬ a = 0xff42),
      if_neg (by omega : ¬ a = 0xff43), if_neg (by omega : ¬ a = 0xff44),
      if_neg (by omega : ¬ a = 0xff47),
      if_neg (by omega : ¬ (a = 0xff50 ∧ s.boot_rom_active = true)),
      if_neg (by omega : ¬ a < 0x8000),
      memory_map_ram s a (by omega) (by omega)]
  rw [if_neg (by omega : ¬ a < 0xa000), if_neg (by omega : ¬ a < 0xc000)]
  simp only [regionSet]
  rw [if_pos (by omega : 0xc000 ≤ a ∧ a ≤ 0xde00)]

theorem busWrite_iwram_echo (s : Bus) (a v : Nat) (hc : 0xe000 ≤ a) (hm : a ≤ 0xfe00) :
    busWrite s a v = { s with internal_work_ram := (memSet (memSet s.internal_work_ram (a - 0xc000) v) (a - 0x1000 - 0xc000) (v % 0x100)) } := by
  unfold busWrite
  rw [if_neg (by omega : ¬ a = 0xff40), if_neg (by omega : ¬ a = 0xff42),
      if_neg (by omega : ¬ a = 0xff43), if_neg (by omega : ¬ a = 0xff44),
      if_neg (by omega : ¬ a = 0xff47),
      if_neg (by omega : ¬ (a = 0xff50 ∧ s.boot_rom_active = true)),
      if_neg (by omega : ¬ a < 0x8000),
      memory_map_ram s a (by omega) (by omega)]
  rw [if_neg (by omega : ¬ a < 0xa000), if_neg (by omega : ¬ a < 0xc000)]
  simp only [regionSet]
  rw [if_neg (by omega : ¬ (0xc000 ≤ a ∧ a ≤ 0xde00)),
      if_pos (by omega : 0xe000 ≤ a ∧ a ≤ 0xfe00)]

theorem busWrite_iwram_plain (s : Bus) (a v : Nat)
    (hr : (0xde00 < a ∧ a < 0xe000) ∨ (0xfe00 < a ∧ a ≤ 0xffff))
    (h3 : a ≠ 0xff40) (h4 : a ≠ 0xff42) (h5 : a ≠ 0xff43) (h6 : a ≠ 0xff44)
    (h7 : a ≠ 0xff47) (h8 : a ≠ 0xff50) :
    busWrite s a v = { s with internal_work_ram := (memSet s.internal_work_ram (a - 0xc000) v) } := by
  unfold busWrite
  rw [if_neg h3, if_neg h4, if_neg h5, if_neg h6, if_neg h7,
      if_neg (by omega : ¬ (a = 0xff50 ∧ s.boot_rom_active = true)),
      if_neg (by omega : ¬ a < 0x8000),
      memory_map_ram s a (by omega) (by omega)]
  rw [if_neg (by omega : ¬ a < 0xa000), if_neg (by omega : ¬ a < 0xc000)]
  simp only [regionSet]
  rw [if_neg (by omega : ¬ (0xc000 ≤ a ∧ a ≤ 0xde00)),
      if_neg (by omega : ¬ (0xe000 ≤ a ∧ a ≤ 0xfe00))]

theorem busRead_busWrite_self (s : Bus) (a v : Nat) (h : plainRAM a) :
    busRead (busWrite s a v) a = v % 0x100 := by
  obtain ⟨h1, h2, h3, h4, h5, h6, h7, h8⟩ := id h
  by_cases ha : a < 0xa000
  · rw [busWrite_display s a v h1 ha, busRead_ram _ a h, if_pos ha,
      upd_display_ram_eq, memSet_self]
  · by_cases hb : a < 0xc000
    · rw [busWrite_ewram s a v (by omega) hb, busRead_ram _ a h,
        if_neg ha, if_pos hb, upd_ewram_ewram_eq, memSet_self]
    · by_cases hm : a ≤ 0xde00
      · rw [busWrite_iwram_mid s a v (by omega) hm, busRead_ram _ a h,
          if_neg ha, if_neg hb, upd_iwram_iwram_eq,
          memSet_other _ _ _ _ (by omega), memSet_self]
      · by_cases he : a < 0xe000
        · rw [busWrite_iwram_plain s a v (by omega) h3 h4 h5 h6 h7 h8,
            busRead_ram _ a h, if_neg ha, if_neg hb, upd_iwram_iwram_eq,
            memSet_self]
        · by_cases hg : a ≤ 0xfe00
          · rw [busWrite_iwram_echo s a v (by omega) hg, busRead_ram _ a h,
              if_neg ha, if_neg hb, upd_iwram_iwram_eq,
              memSet_other _ _ _ _ (by omega), memSet_self]
          · rw [busWrite_iwram_plain s a v (by omega) h3 h4 h5 h6 h7 h8,
              busRead_ram _ a h, if_neg ha, if_neg hb, upd_iwram_iwram_eq,
              memSet_self]

theorem busRead_busWrite_other (s : Bus) (a b v : Nat) (h : plainRAM a)
    (hb : plainRAM b) (hne : b ≠ a) (hm1 : b ≠ a + 0x1000) (hm2 : a ≠ b + 0x1000) :
    busRead (busWrite s a v) b = busRead s b := by
  obtain ⟨h1, h2, h3, h4, h5, h6, h7, h8⟩ := id h
  obtain ⟨g1, g2, g3, g4, g5, g6, g7, g8⟩ := id hb
  have hcase : (a < 0xa000) ∨ (0xa000 ≤ a ∧ a < 0xc000) ∨
      (0xc000 ≤ a ∧ a ≤ 0xde00) ∨ (0xe000 ≤ a ∧ a ≤ 0xfe00) ∨
      ((0xde00 < a ∧ a < 0xe000) ∨ (0xfe00 < a ∧ a ≤ 0xffff)) := by omega
  rcases hcase with hA | hB | hC | hD | hE
  · rw [busWrite_display s a v h1 hA, busRead_ram _ b hb, busRead_ram s b hb,
      upd_display_ram_eq, upd_display_ewram_eq, upd_display_iwram_eq]
    by_cases hx : b < 0xa000
    · rw [if_pos hx, if_pos hx, memSet_other _ _ _ _ (by omega)]
    · rw [if_neg hx, if_neg hx]
  · rw [busWrite_ewram s a v hB.1 hB.2, busRead_ram _ b hb, busRead_ram s b hb,
      upd_ewram_display_eq, upd_ewram_ewram_eq, upd_ewram_iwram_eq]
    by_cases hx : b < 0xa000
    · rw [if_pos hx, if_pos hx]
    · by_cases hy : b < 0xc000
      · rw [if_neg hx, if_neg hx, if_pos hy, if_pos hy,
          memSet_other _ _ _ _ (by omega)]
      · rw [if_neg hx, if_neg hx, if_neg hy, if_neg hy]
  · rw [busWrite_iwram_mid s a v hC.1 hC.2, busRead_ram _ b hb, busRead_ram s b hb,
      upd_iwram_display_eq, upd_iwram_ewram_eq, upd_iwram_iwram_eq]
    by_cases hx : b < 0xa000
    · rw [if_pos hx, if_pos hx]
    · by_cases hy : b < 0xc000
      · rw [if_neg hx, if_neg hx, if_pos hy, if_pos hy]
      · rw [if_neg hx, if_neg hx, if_neg hy, if_neg hy,
          memSet_other _ _ _ _ (by omega), memSet_other _ _ _ _ (by omega)]
  · rw [busWrite_iwram_echo s a v hD.1 hD.2, busRead_ram _ b hb, busRead_ram s b hb,
      upd_iwram_display_eq, upd_iwram_ewram_eq, upd_iwram_iwram_eq]
    by_cases hx : b < 0xa000
    · rw [if_pos hx, if_pos hx]
    · by_cases hy : b < 0xc000
      · rw [if_neg hx, if_neg hx, if_pos hy, if_pos hy]
      · rw [if_neg hx, if_neg hx, if_neg hy, if_neg hy,
          memSet_other _ _ _ _ (by omega), memSet_other _ _ _ _ (by omega)]
  · rw [busWrite_iwram_plain s a v hE h3 h4 h5 h6 h7 h8, busRead_ram _ b hb,
      busRead_ram s b hb,
      upd_iwram_display_eq, upd_iwram_ewram_eq, upd_iwram_iwram_eq]
    by_cases hx : b < 0xa000
    · rw [if_pos hx, if_pos hx]
    · by_cases hy : b < 0xc000
      · rw [if_neg hx, if_neg hx, if_pos hy, if_pos hy]
      · rw [if_neg hx, if_neg hx, if_neg hy, if_neg hy,
          memSet_other _ _ _ _ (by omega)]

theorem get16be_le (regs : ByteFn) (i : Nat) (h1 : regs i ≤ 0xff)
    (h2 : regs (i+1) ≤ 0xff) : get16be regs i ≤ 0xffff := by
  unfold get16be
  have ha : regs i <<< 8 < 2 ^ 16 := by
    rw [Nat.shiftLeft_eq]
    omega
  have hb : regs (i+1) < 2 ^ 16 := by omega
  have := Nat.or_lt_two_pow ha hb
  omega

theorem get16be_set16be_same (regs : ByteFn) (i : Nat) (v : Int) :
    get16be (set16be regs i v) i = (v % 0x10000).toNat := by
  unfold get16be set16be
  rw [updFn_self, updFn_other _ _ _ _ (by omega), updFn_self]
  exact recomb_shift _

theorem get16be_set16be_other (regs : ByteFn) (i j : Nat) (v : Int)
    (h : j + 1 < i ∨ i + 1 < j) :
    get16be (set16be regs i v) j = get16be regs j := by
  unfold get16be set16be
  rw [updFn_other _ _ _ _ (by omega), updFn_other _ _ _ _ (by omega),
      updFn_other _ _ _ _ (by omega), updFn_other _ _ _ _ (by omega)]

theorem setSP_SP (c : CPU) (v : Int) (h0 : 0 ≤ v) (h1 : v < 0x10000) :
    (c.setSP v).SP = v.toNat := by
  show get16be (set16be c.registers 2 v) 2 = v.toNat
  rw [get16be_set16be_same, Int.emod_eq_of_lt h0 h1]

/-- Claim C8: for every reachable CPU state whose SP and SP+1 address
ordinary writable RAM, executing PUSH rr followed immediately by POP rr
(the push of the pair value, the pop, and the write of the popped word
back into the pair, exactly as the 0xC5/0xC1-style handlers do) restores
both the register pair and SP to their original values.  `i` ranges over
the register-pair indices AF, BC, DE, HL. -/
theorem gb_C8_push_pop_roundtrip (c : CPU) (i : Nat)
    (hi : i = 4 ∨ i = 6 ∨ i = 8 ∨ i = 10)
    (hr1 : c.registers i ≤ 0xff) (hr2 : c.registers (i+1) ≤ 0xff)
    (hA : plainRAM c.SP) (hB : plainRAM (c.SP + 1)) :
    ((c.push (get16be c.registers i)).pop).2 = get16be c.registers i ∧
    (({ ((c.push (get16be c.registers i)).pop).1 with registers := set16be ((c.push (get16be c.registers i)).pop).1.registers i ((((c.push (get16be c.registers i)).pop).2 : Nat) : Int) } : CPU)).SP = c.SP ∧
    get16be (set16be ((c.push (get16be c.registers i)).pop).1.registers i ((((c.push (get16be c.registers i)).pop).2 : Nat) : Int)) i = get16be c.registers i := by
  obtain ⟨p1, p2, p3, p4, p5, p6, p7, p8⟩ := id hA
  obtain ⟨q1, q2, q3, q4, q5, q6, q7, q8⟩ := id hB
  have hgt : 3 < i := by rcases hi with rfl | rfl | rfl | rfl <;> omega
  set nn := get16be c.registers i with hnn_def
  have hnn : nn ≤ 0xffff := get16be_le c.registers i hr1 hr2
  set SP0 := c.SP with hSP_def
  set hi8 := (u16_to_u8 nn).1 with hhi
  set lo8 := (u16_to_u8 nn).2 with hlo
  have hhi_lt : hi8 ≤ 0xff := by
    rw [hhi]
    show (nn &&& 0xff00) >>> 8 ≤ 0xff
    rw [hi_byte_eq, and_0xff_eq_mod]
    omega
  have hlo_lt : lo8 ≤ 0xff := by
    rw [hlo]
    show nn &&& 0xff ≤ 0xff
    rw [and_0xff_eq_mod]
    omega
  have hmem1 : (c.push nn).memory = busWrite (busWrite c.memory (SP0 + 1) hi8) SP0 lo8 := rfl
  have hkeep : ({ c with memory := set16 c.memory c.SP nn } : CPU).SP = SP0 := rfl
  have hSP1 : (c.push nn).SP = SP0 - 2 := by
    show (({ c with memory := set16 c.memory c.SP nn } : CPU).setSP ((({ c with memory := set16 c.memory c.SP nn } : CPU).SP : Int) - 2)).SP = SP0 - 2
    rw [hkeep, setSP_SP _ _ (by omega) (by omega)]
    omega
  have hpop1 : ((c.push nn).pop).1.SP = SP0 := by
    show ((c.push nn).setSP (((c.push nn).SP : Int) + 2)).SP = SP0
    rw [hSP1, setSP_SP _ _ (by omega) (by omega)]
    omega
  have hval : ((c.push nn).pop).2 = nn := by
    show get16 ((c.push nn).setSP (((c.push nn).SP : Int) + 2)).memory (((c.push nn).setSP (((c.push nn).SP : Int) + 2)).SP) = nn
    rw [show ((c.push nn).setSP (((c.push nn).SP : Int) + 2)).memory = (c.push nn).memory from rfl]
    rw [show ((c.push nn).setSP (((c.push nn).SP : Int) + 2)).SP = ((c.push nn).pop).1.SP from rfl, hpop1]
    show u8_to_u16 (busRead (c.push nn).memory (SP0 + 1)) (busRead (c.push nn).memory SP0) = nn
    rw [hmem1]
    rw [busRead_busWrite_self _ _ _ hA]
    rw [busRead_busWrite_other _ _ _ _ hA hB (by omega) (by omega) (by omega)]
    rw [busRead_busWrite_self _ _ _ hB]
    rw [Nat.mod_eq_of_lt (by omega), Nat.mod_eq_of_lt (by omega)]
    exact u16_roundtrip nn hnn
  refine ⟨hval, ?_, ?_⟩
  · show get16be (set16be ((c.push nn).pop).1.registers i ((((c.push nn).pop).2 : Nat) : Int)) 2 = SP0
    rw [get16be_set16be_other _ _ _ _ (by omega)]
    exact hpop1
  · rw [get16be_set16be_same, hval, Int.emod_eq_of_lt (by omega) (by omega)]
    omega

/-- The effect of one iteration of the `__init__` mirroring loop on the
internal work RAM array, for loop indices in 0xC000..0xDE00. -/
def mirrorStep (f : ByteFn) (i : Nat) : ByteFn :=
  memSet (memSet f (i - 0xc000) (f (i + 0x1000 - 0xc000)))
    (i + 0x1000 - 0xc000) (f (i + 0x1000 - 0xc000) % 0x100)

theorem initMirror_step_eq (t : Bus) (i : Nat) (h1 : 0xc000 ≤ i) (h2 : i ≤ 0xde00) :
    busWrite t i (busRead t (i + 0x1000)) =
    { t with internal_work_ram := mirrorStep t.internal_work_ram i } := by
  have hplain : plainRAM (i + 0x1000) := by
    refine ⟨by omega, by omega, by omega, by omega, by omega, by omega, by omega, by omega⟩
  rw [busRead_ram t (i + 0x1000) hplain,
    if_neg (by omega : ¬ i + 0x1000 < 0xa000),
    if_neg (by omega : ¬ i + 0x1000 < 0xc000),
    busWrite_iwram_mid t i _ h1 h2]
  rfl

theorem initMirror_fold_commute (l : List Nat)
    (hl : ∀ i ∈ l, 0xc000 ≤ i ∧ i ≤ 0xde00) (t : Bus) :
    l.foldl (fun s i => busWrite s i (busRead s (i + 0x1000))) t =
    { t with internal_work_ram := l.foldl mirrorStep t.internal_work_ram } := by
  induction l generalizing t with
  | nil => rfl
  | cons x xs ih =>
    have hx := hl x (by simp)
    simp only [List.foldl_cons]
    rw [initMirror_step_eq t x hx.1 hx.2]
    rw [ih (fun i hi => hl i (by simp [hi]))]

theorem mirrorStep_preserve (f : ByteFn) (i w : Nat)
    (h1 : i - 0xc000 ≠ w) (h2 : i + 0x1000 - 0xc000 ≠ w) :
    mirrorStep f i w = f w := by
  unfold mirrorStep
  rw [memSet_other _ _ _ _ (Ne.symm h2), memSet_other _ _ _ _ (Ne.symm h1)]

theorem fold_mirrorStep_preserve (l : List Nat) (f : ByteFn) (w : Nat)
    (h : ∀ i ∈ l, i - 0xc000 ≠ w ∧ i + 0x1000 - 0xc000 ≠ w) :
    l.foldl mirrorStep f w = f w := by
  induction l generalizing f with
  | nil => rfl
  | cons x xs ih =>
    have hx := h x (by simp)
    simp only [List.foldl_cons]
    rw [ih _ (fun i hi => h i (by simp [hi])), mirrorStep_preserve _ _ _ hx.1 hx.2]

/-- Power-on internal work RAM used for the mirror-invariant
counterexample: one possible randomized fill (index 0x1000 holds 1,
index 0x2000 holds 2, all other bytes 0). -/
def iwramC4 : ByteFn := fun i =>
  if i = 0x1000 then 1 else if i = 0x2000 then 2 else 0

/-- A minimal one-bank cartridge (header byte 0x148 = 0 codes 2 banks). -/
def cartZ : Cartridge := ⟨[fun _ => 0]⟩

/-- The freshly constructed memory controller for the counterexample. -/
def busC4 : Bus :=
  mkMemoryController (fun _ => 0) (mkDisplay (fun _ => 0)) cartZ (fun _ => 0) iwramC4

/-- The pre-mirror-loop state of `busC4`. -/
def busC4pre : Bus :=
  { boot_rom := fun _ => 0, display := mkDisplay (fun _ => 0), cartridge := cartZ,
    ewram := fun _ => 0, internal_work_ram := iwramC4, home := 1, boot_rom_active := true }

theorem range'_bounds {i s n : Nat} (h : i ∈ List.range' s n) :
    s ≤ i ∧ i < s + n := by
  obtain ⟨k, hk, rfl⟩ := List.mem_range'.1 h
  omega

theorem busC4_split :
    busC4 = { busC4pre with internal_work_ram := (List.range' 0xc000 0x1e01).foldl mirrorStep iwramC4 } := by
  show initMirror busC4pre = _
  unfold initMirror
  rw [initMirror_fold_commute _ (fun i hi => by have := range'_bounds hi; omega)]
  rfl

theorem mirrorFold_values :
    (List.range' 0xc000 0x1e01).foldl mirrorStep iwramC4 0 = 1 ∧
    (List.range' 0xc000 0x1e01).foldl mirrorStep iwramC4 0x1000 = 2 := by
  have e1 : List.range' 0xc000 1 ++ List.range' 0xc001 0xfff = List.range' 0xc000 0x1000 := by
    have h := List.range'_append_1 0xc000 1 0xfff
    norm_num at h ⊢
    exact h
  have e2 : List.range' 0xc000 0x1000 ++ List.range' 0xd000 1 = List.range' 0xc000 0x1001 := by
    have h := List.range'_append_1 0xc000 0x1000 1
    norm_num at h ⊢
    exact h
  have e3 : List.range' 0xc000 0x1001 ++ List.range' 0xd001 0xe00 = List.range' 0xc000 0x1e01 := by
    have h := List.range'_append_1 0xc000 0x1001 0xe00
    norm_num at h ⊢
    exact h
  rw [← e3, ← e2, ← e1, List.foldl_append, List.foldl_append, List.foldl_append]
  -- step at 0xc000
  have hf1 : (List.range' 0xc000 1).foldl mirrorStep iwramC4 = mirrorStep iwramC4 0xc000 := rfl
  rw [hf1]
  set f1 := mirrorStep iwramC4 0xc000 with hf1_def
  have f1_0 : f1 0 = 1 := by decide
  have f1_1000 : f1 0x1000 = 1 := by decide
  have f1_2000 : f1 0x2000 = 2 := by decide
  -- segment 0xc001..0xcfff preserves the three watched cells
  set f2 := (List.range' 0xc001 0xfff).foldl mirrorStep f1 with hf2_def
  have f2_0 : f2 0 = 1 := by
    rw [hf2_def, fold_mirrorStep_preserve _ _ _
      (fun i hi => by have := range'_bounds hi; omega)]
    exact f1_0
  have f2_1000 : f2 0x1000 = 1 := by
    rw [hf2_def, fold_mirrorStep_preserve _ _ _
      (fun i hi => by have := range'_bounds hi; omega)]
    exact f1_1000
  have f2_2000 : f2 0x2000 = 2 := by
    rw [hf2_def, fold_mirrorStep_preserve _ _ _
      (fun i hi => by have := range'_bounds hi; omega)]
    exact f1_2000
  -- step at 0xd000
  have hf3 : (List.range' 0xd000 1).foldl mirrorStep f2 = mirrorStep f2 0xd000 := rfl
  rw [hf3]
  set f3 := mirrorStep f2 0xd000 with hf3_def
  have f3_0 : f3 0 = 1 := by
    rw [hf3_def, mirrorStep_preserve _ _ _ (by norm_num) (by norm_num)]
    exact f2_0
  have f3_1000 : f3 0x1000 = 2 := by
    rw [hf3_def]
    show memSet (memSet f2 (0xd000 - 0xc000) (f2 (0xd000 + 0x1000 - 0xc000)))
      (0xd000 + 0x1000 - 0xc000) (f2 (0xd000 + 0x1000 - 0xc000) % 0x100) 0x1000 = 2
    norm_num
    rw [memSet_other _ _ _ _ (by norm_num), memSet_self, f2_2000]
  -- segment 0xd001..0xde00 preserves the two watched cells
  constructor
  · rw [fold_mirrorStep_preserve _ _ _
      (fun i hi => by have := range'_bounds hi; omega)]
    exact f3_0
  · rw [fold_mirrorStep_preserve _ _ _
      (fun i hi => by have := range'_bounds hi; omega)]
    exact f3_1000

/-- Claim C4, counterexample: the claim asserts the work-RAM mirror
invariant read(a) = read(a+0x1000) for 0xC000 ≤ a ≤ 0xDDFF in every
reachable state, but in the freshly constructed bus (one possible
randomized power-on fill) reading 0xC000 and 0xD000 already disagree,
because the constructor mirroring loop runs over 0xC000..0xDE00 and its
upper half overwrites the lower copies it has just written. -/
theorem gb_C4_counterexample :
    ¬ (busRead busC4 0xc000 = busRead busC4 (0xc000 + 0x1000)) := by
  intro h
  rw [busC4_split] at h
  rw [busRead_ram _ _ (⟨by omega, by omega, by omega, by omega, by omega, by omega,
        by omega, by omega⟩ : plainRAM 0xc000),
      busRead_ram _ _ (⟨by omega, by omega, by omega, by omega, by omega, by omega,
        by omega, by omega⟩ : plainRAM (0xc000 + 0x1000))] at h
  rw [if_neg (by norm_num : ¬ (0xc000 : Nat) < 0xa000),
      if_neg (by norm_num : ¬ (0xc000 : Nat) < 0xc000),
      if_neg (by norm_num : ¬ (0xc000 + 0x1000 : Nat) < 0xa000),
      if_neg (by norm_num : ¬ (0xc000 + 0x1000 : Nat) < 0xc000)] at h
  simp only [upd_iwram_iwram_eq] at h
  rw [(by norm_num : (0xc000 - 0xc000 : Nat) = 0),
      (by norm_num : (0xc000 + 0x1000 - 0xc000 : Nat) = 0x1000)] at h
  have hv := mirrorFold_values
  rw [hv.1, hv.2] at h
  exact absurd h (by norm_num)

/-- Claim C4 as amended: every bus write to an address in 0xC000..0xDDFF
stores the byte at the address and at address+0x1000, and every bus
write to 0xE000..0xFDFF stores it at the address and at address-0x1000
(reading either location immediately afterwards returns the written
byte modulo 0x100).  The original claim additionally asserted the
read-equality read(a) = read(a+0x1000) in every reachable state
including the freshly constructed one, which the counterexample
refutes. -/
theorem gb_C4_write_mirroring (s : Bus) (a v : Nat) :
    (0xc000 ≤ a → a ≤ 0xddff →
      busRead (busWrite s a v) a = v % 0x100 ∧
      busRead (busWrite s a v) (a + 0x1000) = v % 0x100) ∧
    (0xe000 ≤ a → a ≤ 0xfdff →
      busRead (busWrite s a v) a = v % 0x100 ∧
      busRead (busWrite s a v) (a - 0x1000) = v % 0x100) := by
  constructor
  · intro h1 h2
    refine ⟨busRead_busWrite_self s a v
      ⟨by omega, by omega, by omega, by omega, by omega, by omega, by omega, by omega⟩, ?_⟩
    rw [busWrite_iwram_mid s a v (by omega) (by omega),
      busRead_ram _ _ (⟨by omega, by omega, by omega, by omega, by omega, by omega,
        by omega, by omega⟩ : plainRAM (a + 0x1000)),
      if_neg (by omega : ¬ a + 0x1000 < 0xa000),
      if_neg (by omega : ¬ a + 0x1000 < 0xc000), upd_iwram_iwram_eq,
      show a + 0x1000 - 0xc000 = a + 0x1000 - 0xc000 from rfl, memSet_self]
    omega
  · intro h1 h2
    refine ⟨busRead_busWrite_self s a v
      ⟨by omega, by omega, by omega, by omega, by omega, by omega, by omega, by omega⟩, ?_⟩
    rw [busWrite_iwram_echo s a v (by omega) (by omega),
      busRead_ram _ _ (⟨by omega, by omega, by omega, by omega, by omega, by omega,
        by omega⟩ : plainRAM (a - 0x1000)),
      if_neg (by omega : ¬ a - 0x1000 < 0xa000),
      if_neg (by omega : ¬ a - 0x1000 < 0xc000), upd_iwram_iwram_eq, memSet_self]
    omega

theorem regionSet_cartridge (t : Bus) (r : Region) (i w : Nat) :
    (regionSet t r i w).cartridge = t.cartridge := by cases r <;> rfl

theorem regionSet_home (t : Bus) (r : Region) (i w : Nat) :
    (regionSet t r i w).home = t.home := by cases r <;> rfl

theorem busWrite_cartridge (s : Bus) (a v : Nat) :
    (busWrite s a v).cartridge = s.cartridge := by
  unfold busWrite
  repeat' split
  all_goals try (rcases hrb : s.cartridge.rom_banks with - | n <;> try (simp only [hrb]))
  all_goals repeat' split
  all_goals simp only [regionSet_cartridge]

theorem busWrite_home_ne_zero (s : Bus) (a v : Nat) (h : s.home ≠ 0) :
    (busWrite s a v).home ≠ 0 := by
  unfold busWrite
  repeat' split
  all_goals try (rcases hrb : s.cartridge.rom_banks with - | n <;> try (simp only [hrb]))
  all_goals repeat' split
  all_goals try (simp only [regionSet_home])
  all_goals first | exact h | omega

theorem mkMemoryController_home (b : ByteFn) (d : Display) (cg : Cartridge)
    (e i : ByteFn) : (mkMemoryController b d cg e i).home = 1 := by
  unfold mkMemoryController initMirror
  rw [initMirror_fold_commute _ (fun j hj => by have := range'_bounds hj; omega)]

theorem busWrite_bank_switch (s : Bus) (a v n : Nat) (ha : a < 0x8000)
    (hn : s.cartridge.rom_banks = some n)
    (hlen : (if v % n = 0 then 1 else v % n) < s.cartridge.rom_bank.length) :
    (busWrite s a v).home = (if v % n = 0 then 1 else v % n) := by
  unfold busWrite
  rw [if_neg (by omega : ¬ a = 0xff40), if_neg (by omega : ¬ a = 0xff42),
      if_neg (by omega : ¬ a = 0xff43), if_neg (by omega : ¬ a = 0xff44),
      if_neg (by omega : ¬ a = 0xff47),
      if_neg (by omega : ¬ (a = 0xff50 ∧ s.boot_rom_active = true)),
      if_pos ha]
  simp only [hn]
  rw [if_pos hlen]


/-- Cartridge used by the PUSH/POP address check: one zero bank. -/
def cartC1 : Cartridge := cartZ

/-- Work RAM holding four distinct marker bytes around 0xC100 (bus
addresses 0xC0FE, 0xC0FF, 0xC100, 0xC101). -/
def iwramC1 : ByteFn := fun i =>
  if i = 0xfe then 0x11 else if i = 0xff then 0x22
  else if i = 0x100 then 0x33 else if i = 0x101 then 0x44 else 0

/-- Bus for the PUSH/POP address check. -/
def busC1 : Bus :=
  { boot_rom := fun _ => 0, display := mkDisplay (fun _ => 0), cartridge := cartC1,
    ewram := fun _ => 0, internal_work_ram := iwramC1, home := 1, boot_rom_active := false }

/-- CPU about to push with SP = 0xC100. -/
def cpuC1push : CPU := (mkCPU busC1).setSP 0xc100

/-- CPU about to pop with SP = 0xC0FE. -/
def cpuC1pop : CPU := (mkCPU busC1).setSP 0xc0fe

/-- Claim C1 (failing input, claim is right and the code wrong):
the claim says PUSH writes the high byte at SP-1 and the low byte at SP-2
before SP decreases by 2, and POP reads the low byte at SP and the high
byte at SP+1 before SP increases by 2.  The code instead writes the high
byte at SP+1 and the low byte at SP and only then decreases SP, and pop
increments SP by 2 first and reads at the incremented SP: pushing 0xABCD
with SP=0xC100 stores 0xAB at 0xC101 and 0xCD at 0xC100 while the claimed
cells 0xC0FF/0xC0FE keep their old bytes 0x22/0x11, and popping with
SP=0xC0FE over memory [C0FE]=11 [C0FF]=22 [C100]=33 [C101]=44 returns
0x4433 instead of the claimed 0x2211. -/
theorem gb_C1_push_pop_addresses :
    ((cpuC1push.push 0xabcd).SP = 0xc0fe ∧
     busRead (cpuC1push.push 0xabcd).memory 0xc101 = 0xab ∧
     busRead (cpuC1push.push 0xabcd).memory 0xc100 = 0xcd ∧
     busRead (cpuC1push.push 0xabcd).memory 0xc0ff = 0x22 ∧
     busRead (cpuC1push.push 0xabcd).memory 0xc0fe = 0x11) ∧
    ((cpuC1pop.pop).2 = 0x4433 ∧ (cpuC1pop.pop).1.SP = 0xc100) := by
  decide

/-- Cartridge whose bank 0 has opcode 0xE9 at 0x0150 and the 4-bank
header code; banks 1..3 hold marker bytes. -/
def cartC2 : Cartridge :=
  ⟨[fun i => if i = 0x148 then 0x01 else if i = 0x150 then 0xe9 else 0,
    fun _ => 0x11, fun _ => 0x12, fun _ => 0x13]⟩

/-- Bus for the JP (HL) check; VRAM holds 0x42 at address 0x9876. -/
def busC2 : Bus :=
  { boot_rom := fun _ => 0, display := mkDisplay (fun i => if i = 0x1876 then 0x42 else 0),
    cartridge := cartC2, ewram := fun _ => 0, internal_work_ram := fun _ => 0,
    home := 1, boot_rom_active := false }

/-- CPU with PC at the 0xE9 opcode and HL = 0x9876. -/
def cpuC2 : CPU := ((mkCPU busC2).setPC 0x150).setHL 0x9876

/-- Claim C2 (failing input, claim is right and the code wrong): the
claim (and the instruction set) says JP (HL) sets PC to HL itself, but
the handler executes `self.jmp(self.memory[self.HL])`: with HL = 0x9876
and memory[0x9876] = 0x42 the step ends with PC = 0x42, not 0x9876. -/
theorem gb_C2_jp_hl_reads_memory :
    cpuC2.fetch = 0xe9 ∧ cpuC2.HL = 0x9876 ∧
    busRead cpuC2.memory cpuC2.HL = 0x42 ∧
    cpuC2.step.isOk = true ∧
    (cpuC2.step.state).PC = 0x42 ∧
    (cpuC2.step.state).PC ≠ cpuC2.HL := by
  decide

/-- Boot ROM with the two instruction bytes E0 50 (LDH (0xFF50), A) at
0x00FC. -/
def bootRomC3 : ByteFn := fun i =>
  if i = 0xfc then 0xe0 else if i = 0xfd then 0x50 else 0

/-- Work RAM already holding every post-boot snapshot byte (index is
address minus 0xC000; unlisted snapshot addresses hold 0). -/
def iwramC3 : ByteFn := fun i =>
  if i = 0x3f10 then 0x80 else if i = 0x3f11 then 0xbf
  else if i = 0x3f12 then 0xf3 else if i = 0x3f14 then 0xbf
  else if i = 0x3f16 then 0x3f else if i = 0x3f19 then 0xbf
  else if i = 0x3f1a then 0x7f else if i = 0x3f1b then 0xff
  else if i = 0x3f1c then 0x9f else if i = 0x3f1e then 0xbf
  else if i = 0x3f20 then 0xff else if i = 0x3f23 then 0xbf
  else if i = 0x3f24 then 0x77 else if i = 0x3f25 then 0xf3
  else if i = 0x3f26 then 0xf1 else if i = 0x3f48 then 0xff
  else if i = 0x3f49 then 0xff else 0

/-- Display registers matching the snapshot (LCDC 0x91, SCY 0, SCX 0,
BGP 0xFC). -/
def dispC3 : Display :=
  { ram := fun _ => 0, LY := 0, SCY := 0, SCX := 0, BGPAL := 0xfc, LCDCONT := 0x91 }

/-- Bus for the boot-verification check, boot ROM active. -/
def busC3 : Bus :=
  { boot_rom := bootRomC3, display := dispC3, cartridge := cartZ,
    ewram := fun _ => 0, internal_work_ram := iwramC3, home := 1, boot_rom_active := true }

/-- CPU about to execute the boot-ROM-disabling write; A = 0 differs
from the snapshot value A = 1. -/
def cpuC3 : CPU := (mkCPU busC3).setPC 0xfc

/-- Claim C3 (failing input, claim is right and the code wrong): the
claim says the step fails with EmulatorError when any register differs
from the post-boot snapshot.  In `check_boot` the nested helper
`assert_register` assigns its `ok = False` to a helper-local variable, so
register mismatches never reach the returned flag: this step turns the
boot ROM off with A = 0 (snapshot wants A = 1) and every snapshot memory
byte in place, and it returns normally instead of raising. -/
theorem gb_C3_register_mismatch_undetected :
    cpuC3.memory.boot_rom_active = true ∧
    cpuC3.step.isOk = true ∧
    (cpuC3.step.state).memory.boot_rom_active = false ∧
    (cpuC3.step.state).A = 0x00 ∧
    (cpuC3.step.state).A ≠ 0x01 ∧
    check_boot (cpuC3.step.state) = true := by
  decide

/-- Witness for the amended claim C4 at a concrete write. -/
theorem gb_C4_write_mirroring_witness :
    busRead (busWrite busC4pre 0xc123 0x107) 0xc123 = 0x107 % 0x100 ∧
    busRead (busWrite busC4pre 0xc123 0x107) (0xc123 + 0x1000) = 0x107 % 0x100 :=
  (gb_C4_write_mirroring busC4pre 0xc123 0x107).1 (by norm_num) (by norm_num)

/-- Four-bank cartridge for the bank-switch scenario: header code 0x01 at
0x0148 (4 banks); byte 0 of bank n is 0x10+n. -/
def cartC5 : Cartridge :=
  ⟨[fun i => if i = 0 then 0x10 else if i = 0x148 then 0x01 else 0,
    fun i => if i = 0 then 0x11 else 0,
    fun i => if i = 0 then 0x12 else 0,
    fun i => if i = 0 then 0x13 else 0]⟩

/-- Bus with the four-bank cartridge, bank 1 selected. -/
def busC5 : Bus :=
  { boot_rom := fun _ => 0, display := mkDisplay (fun _ => 0), cartridge := cartC5,
    ewram := fun _ => 0, internal_work_ram := fun _ => 0, home := 1,
    boot_rom_active := false }

/-- Claim C5: a bus write below 0x8000 selects bank `v mod bank_count`
with 0 replaced by 1; no cartridge ROM byte is ever modified by any bus
write; the freshly constructed controller selects bank 1; every bus
write keeps the selected bank nonzero, so bank 0 is never selected in a
reachable state; and on the concrete 4-bank cartridge, writing 0x02 to
0x2000 makes 0x4000 read byte 0 of bank 2, and writing 0x00 makes it
read byte 0 of bank 1. -/
theorem gb_C5_bank_switching :
    (∀ (s : Bus) (a v n : Nat), a < 0x8000 → s.cartridge.rom_banks = some n →
      (if v % n = 0 then 1 else v % n) < s.cartridge.rom_bank.length →
      (busWrite s a v).home = (if v % n = 0 then 1 else v % n)) ∧
    (∀ (s : Bus) (a v : Nat), (busWrite s a v).cartridge = s.cartridge) ∧
    (∀ (b : ByteFn) (d : Display) (cg : Cartridge) (e i : ByteFn),
      (mkMemoryController b d cg e i).home = 1) ∧
    (∀ (s : Bus) (a v : Nat), s.home ≠ 0 → (busWrite s a v).home ≠ 0) ∧
    ((busWrite busC5 0x2000 0x02).home = 2 ∧
     busRead (busWrite busC5 0x2000 0x02) 0x4000 = 0x12 ∧
     (busWrite busC5 0x2000 0x00).home = 1 ∧
     busRead (busWrite busC5 0x2000 0x00) 0x4000 = 0x11 ∧
     cartC5.rom_bank.getD 2 (fun _ => 0) 0 = 0x12 ∧
     cartC5.rom_bank.getD 1 (fun _ => 0) 0 = 0x11) :=
  ⟨fun s a v n => busWrite_bank_switch s a v n,
   busWrite_cartridge,
   mkMemoryController_home,
   busWrite_home_ne_zero,
   by decide⟩

/-- Witness for claim C5 at concrete inputs. -/
theorem gb_C5_bank_switching_witness :
    (busWrite busC5 0x3000 0x06).home = (if 0x06 % 4 = 0 then 1 else 0x06 % 4) ∧
    (busWrite busC5 0x8123 0x55).home ≠ 0 :=
  ⟨gb_C5_bank_switching.1 busC5 0x3000 0x06 4 (by norm_num) (by decide) (by decide),
   gb_C5_bank_switching.2.2.2.1 busC5 0x8123 0x55 (by decide)⟩

/-- Cartridge with opcode 0x48 at 0x0150 and 0x7A at 0x0151. -/
def cartC6 : Cartridge :=
  ⟨[fun i => if i = 0x148 then 0x01 else if i = 0x150 then 0x48
      else if i = 0x151 then 0x7a else 0,
    fun _ => 0, fun _ => 0, fun _ => 0]⟩

/-- Bus for the LD r, r2 checks. -/
def busC6 : Bus :=
  { boot_rom := fun _ => 0, display := mkDisplay (fun _ => 0), cartridge := cartC6,
    ewram := fun _ => 0, internal_work_ram := fun _ => 0, home := 1,
    boot_rom_active := false }

/-- CPU about to execute opcode 0x48 with B = 0x55 and C = 0. -/
def cpuC6a : CPU := ((mkCPU busC6).setPC 0x150).setB 0x55

/-- CPU about to execute opcode 0x7A with B = 0x55, D = 0x77, A = 0. -/
def cpuC6b : CPU := (((mkCPU busC6).setPC 0x151).setB 0x55).setD 0x77

/-- Claim C6 (failing input, claim is right and the code wrong): the
claim says every LD r, r2 opcode in 0x40..0x7F copies the source into
the destination; but the 0x48 handler is the bare comparison
`self.C == self.B` (C keeps its old value 0 instead of receiving B =
0x55), and the 0x7A handler assigns `self.A = self.B` (A becomes B =
0x55 instead of D = 0x77). -/
theorem gb_C6_ld_rr_slips :
    (cpuC6a.fetch = 0x48 ∧ cpuC6a.B = 0x55 ∧ cpuC6a.C = 0 ∧
     cpuC6a.step.isOk = true ∧
     (cpuC6a.step.state).C = 0 ∧ (cpuC6a.step.state).C ≠ cpuC6a.B) ∧
    (cpuC6b.fetch = 0x7a ∧ cpuC6b.B = 0x55 ∧ cpuC6b.D = 0x77 ∧
     cpuC6b.step.isOk = true ∧
     (cpuC6b.step.state).A = 0x55 ∧ (cpuC6b.step.state).A ≠ cpuC6b.D) := by
  decide

/-- Cartridge with the instruction bytes FE 90 at 0x0150. -/
def cartC7 : Cartridge :=
  ⟨[fun i => if i = 0x148 then 0x01 else if i = 0x150 then 0xfe
      else if i = 0x151 then 0x90 else 0,
    fun _ => 0, fun _ => 0, fun _ => 0]⟩

/-- Bus for the CP d8 flag check. -/
def busC7 : Bus :=
  { boot_rom := fun _ => 0, display := mkDisplay (fun _ => 0), cartridge := cartC7,
    ewram := fun _ => 0, internal_work_ram := fun _ => 0, home := 1,
    boot_rom_active := false }

/-- CPU about to execute FE 90 with A = 0x90 and all four flags set
(F = 0xF0). -/
def cpuC7 : CPU := (((mkCPU busC7).setPC 0x150).setA 0x90).setF 0xf0

/-- Claim C7 (failing input, claim is right and the code wrong): the
claim says CP d8 with A = 0x90 and immediate 0x90 yields Z=1 N=1 H=0
C=0 for every initial flag byte.  The handler never computes H (the
source carries a TODO for it) and the flag-application loop skips an
uncomputed slot, so starting from F = 0xF0 the half-carry flag stays 1;
A, Z, N and C behave as claimed. -/
theorem gb_C7_cp_d8_stale_half_carry :
    cpuC7.fetch = 0xfe ∧ cpuC7.A = 0x90 ∧ cpuC7.H_flag = 1 ∧
    cpuC7.step.isOk = true ∧
    (cpuC7.step.state).A = 0x90 ∧
    (cpuC7.step.state).Z_flag = 1 ∧
    (cpuC7.step.state).N_flag = 1 ∧
    (cpuC7.step.state).H_flag = 1 ∧
    (cpuC7.step.state).C_flag = 0 := by
  decide

/-- Witness CPU for claim C8: SP = 0xC100, BC = 0xABCD. -/
def cpuC8 : CPU := ((mkCPU busC1).setSP 0xc100).setBC 0xabcd

/-- Witness for claim C8 at BC = 0xABCD, SP = 0xC100. -/
theorem gb_C8_push_pop_roundtrip_witness :
    ((cpuC8.push (get16be cpuC8.registers 6)).pop).2 = get16be cpuC8.registers 6 ∧
    (({ ((cpuC8.push (get16be cpuC8.registers 6)).pop).1 with registers := set16be ((cpuC8.push (get16be cpuC8.registers 6)).pop).1.registers 6 ((((cpuC8.push (get16be cpuC8.registers 6)).pop).2 : Nat) : Int) } : CPU)).SP = cpuC8.SP ∧
    get16be (set16be ((cpuC8.push (get16be cpuC8.registers 6)).pop).1.registers 6 ((((cpuC8.push (get16be cpuC8.registers 6)).pop).2 : Nat) : Int)) 6 = get16be cpuC8.registers 6 :=
  gb_C8_push_pop_roundtrip cpuC8 6 (by norm_num) (by decide) (by decide)
    ⟨by decide, by decide, by decide, by decide, by decide, by decide, by decide, by decide⟩
    ⟨by decide, by decide, by decide, by decide, by decide, by decide, by decide, by decide⟩

/-- Display with the screen off (fresh construction, LCDC = 0). -/
def dispC9off : Display := mkDisplay (fun _ => 0)

/-- Display with the screen on (LCDC bit 7 set). -/
def dispC9on : Display := { mkDisplay (fun _ => 0) with LCDCONT := 0x80 }

/-- Claim C9, counterexample: the freshly constructed display has the
screen off (LCDC = 0), and one `step` leaves LY at 0 instead of
increasing it by 1 modulo 256. -/
theorem gb_C9_ly_counterexample :
    ¬ ((Display.step dispC9off).LY = (dispC9off.LY + 1) % 0x100) := by
  decide

/-- Claim C9 as amended: one invocation of `Display.step` increases LY
by exactly 1 modulo 256 when the screen is on (LCDC bit 7 set), and
leaves LY unchanged when the screen is off. -/
theorem gb_C9_ly_increment (d : Display) :
    (d.screen_on = true → (Display.step d).LY = (d.LY + 1) % 0x100) ∧
    (d.screen_on = false → (Display.step d).LY = d.LY) := by
  constructor <;> intro h <;> simp [Display.step, Display.ly_rollover, h]

/-- Witness for the amended claim C9 with the screen on. -/
theorem gb_C9_ly_increment_witness :
    (Display.step dispC9on).LY = (dispC9on.LY + 1) % 0x100 :=
  (gb_C9_ly_increment dispC9on).1 (by decide)

/-- Bus whose cartridge bank 0 holds opcode 0x39 at address 0. -/
def busC10 : Bus :=
  { boot_rom := fun _ => 0, display := mkDisplay (fun _ => 0),
    cartridge := ⟨[fun i => if i = 0 then 0x39 else 0]⟩,
    ewram := fun _ => 0, internal_work_ram := fun _ => 0, home := 1,
    boot_rom_active := false }

/-- CPU whose PC addresses the byte 0x39. -/
def cpuC10 : CPU := mkCPU busC10

/-- Claim C10: the primary opcode table has no rows for 0x39, 0x3A and
0x3B, so a step whose fetched opcode is one of these raises OpcodeError
from decode with the CPU (PC, registers, memory) exactly as it was —
the error result carries the unmodified input state — even though the
executor contains handlers for all three opcodes (ADD HL,SP; LD A,(HL-);
DEC SP), as the last three conjuncts exhibit. -/
theorem gb_C10_opcode_table_gap :
    (opcodes 0x39 = none ∧ opcodes 0x3a = none ∧ opcodes 0x3b = none) ∧
    (∀ (c : CPU) (b : Nat), (b = 0x39 ∨ b = 0x3a ∨ b = 0x3b) → c.fetch = b →
      c.step = .err .opcodeError c) ∧
    (∀ c : CPU, executeBody c 0x39 (.flat 8) [0x39] none =
      .ok ⟨c.setHL ((c.HL : Int) + c.SP), none, none, none, none, 8⟩) ∧
    (∀ c : CPU, executeBody c 0x3a (.flat 8) [0x3a] none =
      .ok ⟨(c.setA (c.rd c.HL : Int)).setHL (((c.setA (c.rd c.HL : Int)).HL : Int) - 1), none, none, none, none, 8⟩) ∧
    (∀ c : CPU, executeBody c 0x3b (.flat 8) [0x3b] none =
      .ok ⟨c.setSP ((c.SP : Int) - 1), none, none, none, none, 8⟩) := by
  refine ⟨⟨rfl, rfl, rfl⟩, ?_, fun c => rfl, fun c => rfl, fun c => rfl⟩
  intro c b hb hf
  rcases hb with rfl | rfl | rfl <;>
    · have hd : c.decode c.fetch = .err .opcodeError c := by rw [hf]; rfl
      simp only [CPU.step, hd]

/-- Witness for claim C10 at a CPU whose PC addresses 0x39. -/
theorem gb_C10_opcode_table_gap_witness :
    cpuC10.step = .err .opcodeError cpuC10 :=
  gb_C10_opcode_table_gap.2.1 cpuC10 0x39 (Or.inl rfl) (by decide)

end GB
